import Mathlib

/-! AcksenPump: a shallow embedding of `src/AcksenPump.cpp` and `src/AcksenPump.h`.

The controller object of the C++ class `AcksenPump` is a record holding every
data member of the class, under the member's own name.  Three further fields
hold the part of the Arduino platform the methods depend on: the logic level
present on the pump output pin (what `digitalRead(_iPumpOutputPin)` returns),
the chronological list of platform calls a method has issued, and the largest
value of an `int` on the board, `INT_MAX`.

Modelling conventions.

* `int` members and `time_t` time stamps are mathematical integers.  Their
  widths are fixed by the board support package and by the Time library, which
  are not part of the repository, and the controller uses them only for
  comparisons and for `now + length` sums.  The one product of two `int`
  values, `iGrainRestPeriod * 60` in `resetGrainRest`, is computed in `int`: it
  wraps around in two's complement when it leaves the range from `-INT_MAX - 1`
  to `INT_MAX` of the board (`INT_MAX` is 32767 with a 16-bit `int`, 2147483647
  with a 32-bit one).
* `fPumpTemperature` is a rational number: every finite `float` is one, and the
  only use of the member is the comparison with `iMaxPumpTemperature`.
* `now()` is an argument of each method that reads the clock; the reads made by
  one call are taken at the same second.
* Every method is a total function from the state before the call to the state
  after it.  Inside the methods the call `waitForPhaseSync` is one platform
  call; its loop `waitForPin` is modelled on its own, over the samples of the
  sync input and of the millisecond counter, a 32-bit value that wraps around.
-/

namespace AcksenPump

/-! ## Constants of `AcksenPump.h` -/

def PUMP_POSITIVE_LOGIC_ON : Int := 1
def PUMP_POSITIVE_LOGIC_OFF : Int := 0
def PUMP_NEGATIVE_LOGIC_ON : Int := 0
def PUMP_NEGATIVE_LOGIC_OFF : Int := 1

def PUMP_VENTILATION_CYCLE_ON_TIME_DEFAULT : Int := 5
def PUMP_VENTILATION_CYCLE_OFF_TIME_DEFAULT : Int := 2
def PUMP_VENTILATION_CYCLE_COUNT_DEFAULT : Int := 3
def PUMP_VENTILATION_ENABLED_DEFAULT : Bool := true

def PUMP_OPERATING_MODE_OFF : Int := 0
def PUMP_OPERATING_MODE_ON : Int := 1

def PUMP_CONTROL_STOP : Int := 0
def PUMP_CONTROL_VENT : Int := 1
def PUMP_CONTROL_ON : Int := 2
def PUMP_CONTROL_GRAIN_REST : Int := 3

def PUMP_OUTPUT_STATE_OFF : Int := 5
def PUMP_OUTPUT_STATE_ON : Int := 6

def GRAIN_REST_LENGTH_DEFAULT : Int := 1
def GRAIN_REST_PERIOD_DEFAULT : Int := 5
def ENABLE_GRAIN_REST_DEFAULT : Bool := true
def TEMPORARY_INHIBIT_GRAIN_REST_AROUND_SET_POINT_DEFAULT : Bool := true

def MAX_PUMP_TEMP_DEFAULT : Int := 93
def ENABLE_MAX_PUMP_TEMP_DEFAULT : Bool := true

def PUMP_RELAY_SWITCHING_DELAY : Int := 200

def PHASE_SYNC_PRE_ACTIVATION_DELAY_DEFAULT : Int := 0
def PHASE_SYNC_ENABLED_DEFAULT : Bool := false

/-! ## Data model -/

/-- Platform calls issued by the methods of the class, in the order of issue. -/
inductive Effect where
  /-- The two bounded waits of `waitForPhaseSync` on the sync input. -/
  | phaseSyncWait
  /-- A call `delay(ms)`. -/
  | delay (ms : Int)
  /-- A call `digitalWrite(_iPumpOutputPin, level)`. -/
  | digitalWrite (level : Int)
  /-- A call `launchCallbackInitLCDs()`. -/
  | callbackInitLCDs
  deriving DecidableEq, Repr

/-- The data members of `class AcksenPump`, followed by the three platform fields
`pinLevel` (level on the output pin), `effects` (platform calls so far) and
`INT_MAX` (largest value of an `int` on the board). -/
structure Pump where
  iPumpOnState : Int
  iPumpOffState : Int
  bEnablePumpVentilation : Bool
  iPumpVentilationCycles : Int
  iPumpVentilationOnLength : Int
  iPumpVentilationOffLength : Int
  iOperatingMode : Int
  iControlState : Int
  iOutputStateRequested : Int
  iOutputStateActual : Int
  iVentilationCycleRuntimeCount : Int
  dtVentEndTime : Int
  dtVentStartTime : Int
  dtGrainRestEndTime : Int
  dtGrainRestPeriodStartTime : Int
  iGrainRestLength : Int
  iGrainRestPeriod : Int
  bEnableMaxPumpTemperature : Bool
  iMaxPumpTemperature : Int
  fPumpTemperature : ℚ
  bTempFlagForInhibitGrainRestAsAroundPreheatSetPoint : Bool
  bEnableGrainRest : Bool
  bEnableInhibitGrainRestAroundSetPoint : Bool
  bEnablePhaseSync : Bool
  iPhaseSyncPreActivationDelay : Int
  bCurrentlyControllingMashing : Bool
  iPumpRelaySwitchingDelay : Int
  _iPumpOutputPin : Int
  _iPhaseSyncInputPin : Int
  _bStateChangeOccurred : Bool
  pinLevel : Int
  effects : List Effect
  INT_MAX : Nat
  deriving DecidableEq

/-! ## Platform primitives -/

/-- The call `digitalRead(_iPumpOutputPin)`: the level present on the output pin. -/
def digitalRead (s : Pump) : Int := s.pinLevel

/-- The call `digitalWrite(_iPumpOutputPin, level)`: the pin takes the level. -/
def digitalWrite (level : Int) (s : Pump) : Pump :=
  { s with pinLevel := level, effects := s.effects ++ [Effect.digitalWrite level] }

/-- The call `delay(ms)`. -/
def delay (ms : Int) (s : Pump) : Pump :=
  { s with effects := s.effects ++ [Effect.delay ms] }

/-- The method `launchCallbackInitLCDs`: one call of the registered handler. -/
def launchCallbackInitLCDs (s : Pump) : Pump :=
  { s with effects := s.effects ++ [Effect.callbackInitLCDs] }

/-- The method `waitForPhaseSync`: returns at once when phase sync is disabled or
no sync pin is configured; otherwise performs its bounded waits on the sync
input, then the pre-activation delay.  No data member is written. -/
def waitForPhaseSync (s : Pump) : Pump :=
  if s.bEnablePhaseSync = false ∨ s._iPhaseSyncInputPin = -1 then s
  else delay s.iPhaseSyncPreActivationDelay
        { s with effects := s.effects ++ [Effect.phaseSyncWait] }

/-! ## Methods -/

/-- The condition `(bEnableMaxPumpTemperature == true) && (fPumpTemperature >=
iMaxPumpTemperature)` tested by `ToggleState` and by `process`. -/
def maxPumpTemperatureExceeded (s : Pump) : Prop :=
  s.bEnableMaxPumpTemperature = true ∧ (s.iMaxPumpTemperature : ℚ) ≤ s.fPumpTemperature

instance (s : Pump) : Decidable (maxPumpTemperatureExceeded s) := by
  unfold maxPumpTemperatureExceeded; infer_instance

/-- The constructor `AcksenPump(iPumpOutputPin, iPhaseSyncInputPin)`.  Members
with a default member initialiser take it; the members without one
(`iVentilationCycleRuntimeCount`, the four time stamps, `fPumpTemperature`) keep
what the storage `raw` held.  The output pin is written with `iPumpOffState`. -/
def construct (raw : Pump) (iPumpOutputPin iPhaseSyncInputPin : Int) : Pump :=
  let s : Pump :=
    { raw with
      iPumpOnState := PUMP_POSITIVE_LOGIC_ON
      iPumpOffState := PUMP_POSITIVE_LOGIC_OFF
      bEnablePumpVentilation := PUMP_VENTILATION_ENABLED_DEFAULT
      iPumpVentilationCycles := PUMP_VENTILATION_CYCLE_COUNT_DEFAULT
      iPumpVentilationOnLength := PUMP_VENTILATION_CYCLE_ON_TIME_DEFAULT
      iPumpVentilationOffLength := PUMP_VENTILATION_CYCLE_OFF_TIME_DEFAULT
      iOperatingMode := PUMP_OPERATING_MODE_OFF
      iControlState := PUMP_CONTROL_STOP
      iOutputStateRequested := PUMP_OUTPUT_STATE_OFF
      iOutputStateActual := PUMP_OUTPUT_STATE_OFF
      iGrainRestLength := GRAIN_REST_LENGTH_DEFAULT
      iGrainRestPeriod := GRAIN_REST_PERIOD_DEFAULT
      bEnableMaxPumpTemperature := ENABLE_MAX_PUMP_TEMP_DEFAULT
      iMaxPumpTemperature := MAX_PUMP_TEMP_DEFAULT
      bTempFlagForInhibitGrainRestAsAroundPreheatSetPoint := true
      bEnableGrainRest := ENABLE_GRAIN_REST_DEFAULT
      bEnableInhibitGrainRestAroundSetPoint :=
        TEMPORARY_INHIBIT_GRAIN_REST_AROUND_SET_POINT_DEFAULT
      bEnablePhaseSync := PHASE_SYNC_ENABLED_DEFAULT
      iPhaseSyncPreActivationDelay := PHASE_SYNC_PRE_ACTIVATION_DELAY_DEFAULT
      bCurrentlyControllingMashing := false
      iPumpRelaySwitchingDelay := PUMP_RELAY_SWITCHING_DELAY
      _iPumpOutputPin := iPumpOutputPin
      _iPhaseSyncInputPin := iPhaseSyncInputPin
      _bStateChangeOccurred := false }
  digitalWrite s.iPumpOffState s

/-- The method `turnOff`. -/
def turnOff (s : Pump) : Pump :=
  let s1 := { s with
    iControlState := PUMP_CONTROL_STOP
    iOutputStateRequested := PUMP_OUTPUT_STATE_OFF
    iOperatingMode := PUMP_OPERATING_MODE_OFF }
  let iInitialPumpState := digitalRead s1
  let s2 :=
    if digitalRead s1 = s1.iPumpOnState then
      digitalWrite s1.iPumpOffState (waitForPhaseSync s1)
    else s1
  let s3 := { s2 with iOutputStateActual := PUMP_OUTPUT_STATE_OFF }
  if iInitialPumpState ≠ s3.iPumpOffState then
    launchCallbackInitLCDs (delay s3.iPumpRelaySwitchingDelay s3)
  else s3

/-- The value an `int` computation yields when the mathematical result is `x`,
on a board whose largest `int` is `intMax`: `x` itself inside the range from
`-intMax - 1` to `intMax`, and `x` wrapped around in two's complement
outside it. -/
def wrapInt (intMax : Nat) (x : Int) : Int :=
  (x + ((intMax : Int) + 1)) % (2 * ((intMax : Int) + 1)) - ((intMax : Int) + 1)

/-- The value `x` is in the range of an `int` on a board whose largest `int` is
`intMax`. -/
def FitsInt (intMax : Nat) (x : Int) : Prop :=
  -((intMax : Int) + 1) ≤ x ∧ x ≤ (intMax : Int)

instance (intMax : Nat) (x : Int) : Decidable (FitsInt intMax x) := by
  unfold FitsInt; infer_instance

/-- The method `resetGrainRest`, called at second `now`.  The product
`iGrainRestPeriod * 60` is an `int`. -/
def resetGrainRest (now : Int) (s : Pump) : Pump :=
  { s with
    dtGrainRestPeriodStartTime := now + wrapInt s.INT_MAX (s.iGrainRestPeriod * 60)
    dtGrainRestEndTime := now }

/-- The method `ToggleState`, called at second `now`. -/
def ToggleState (now : Int) (s : Pump) : Pump :=
  if s.iControlState = PUMP_CONTROL_STOP then
    if maxPumpTemperatureExceeded s then
      s
    else
      let s1 :=
        if s.bEnablePumpVentilation = true then
          { s with
            iControlState := PUMP_CONTROL_VENT
            iOutputStateRequested := PUMP_OUTPUT_STATE_OFF
            iVentilationCycleRuntimeCount := 0 }
        else
          { s with
            iControlState := PUMP_CONTROL_ON
            iOutputStateRequested := PUMP_OUTPUT_STATE_ON }
      resetGrainRest now { s1 with iOperatingMode := PUMP_OPERATING_MODE_ON }
  else
    { s with
      iControlState := PUMP_CONTROL_STOP
      iOutputStateRequested := PUMP_OUTPUT_STATE_OFF
      iOperatingMode := PUMP_OPERATING_MODE_OFF }

/-- The method `updatePumpTemperature`. -/
def updatePumpTemperature (fNewPumpTemperature : ℚ) (s : Pump) : Pump :=
  { s with fPumpTemperature := fNewPumpTemperature }

/-- The method `stateChangeOccurred`: the returned value and the state after
the call. -/
def stateChangeOccurred (s : Pump) : Bool × Pump :=
  if s._bStateChangeOccurred = true then
    (true, { s with _bStateChangeOccurred := false })
  else
    (false, s)

/-- In `process`, the "Initial Setup Condition" statement of the ventilation
block. -/
def ventInitialSetup (now : Int) (s : Pump) : Pump :=
  if s.iVentilationCycleRuntimeCount = 0 ∧ s.iOutputStateRequested = PUMP_OUTPUT_STATE_OFF then
    { s with
      dtVentStartTime := now
      dtVentEndTime := now + s.iPumpVentilationOnLength
      iOutputStateRequested := PUMP_OUTPUT_STATE_ON }
  else s

/-- In `process`, the "Pump Vent Cycle End Check" statement of the ventilation
block. -/
def ventCycleEndCheck (now : Int) (s : Pump) : Pump :=
  if now ≥ s.dtVentEndTime then
    if s.iOutputStateRequested = PUMP_OUTPUT_STATE_ON then
      { s with
        iVentilationCycleRuntimeCount := s.iVentilationCycleRuntimeCount + 1
        iOutputStateRequested := PUMP_OUTPUT_STATE_OFF
        dtVentStartTime := now
        dtVentEndTime := now + s.iPumpVentilationOffLength }
    else if s.iOutputStateRequested = PUMP_OUTPUT_STATE_OFF then
      { s with
        iOutputStateRequested := PUMP_OUTPUT_STATE_ON
        dtVentStartTime := now
        dtVentEndTime := now + s.iPumpVentilationOnLength }
    else s
  else s

/-- In `process`, the "ventilation phase has ended" statement of the ventilation
block. -/
def ventPhaseEndCheck (s : Pump) : Pump :=
  if s.iVentilationCycleRuntimeCount > s.iPumpVentilationCycles then
    if s.iOperatingMode = PUMP_OPERATING_MODE_OFF then
      { s with
        iControlState := PUMP_CONTROL_STOP
        iOutputStateRequested := PUMP_OUTPUT_STATE_OFF }
    else if s.iOperatingMode = PUMP_OPERATING_MODE_ON then
      { s with
        iControlState := PUMP_CONTROL_ON
        iOutputStateRequested := PUMP_OUTPUT_STATE_ON }
    else s
  else s

/-- In `process`, the "Pump Ventilation Control" block. -/
def ventilationControl (now : Int) (s : Pump) : Pump :=
  if s.iControlState = PUMP_CONTROL_VENT then
    ventPhaseEndCheck (ventCycleEndCheck now (ventInitialSetup now s))
  else s

/-- In `process`, the "Pump Grain Rest Control" block. -/
def grainRestControl (now : Int) (s : Pump) : Pump :=
  if s.iControlState = PUMP_CONTROL_GRAIN_REST ∧ s.iOperatingMode = PUMP_OPERATING_MODE_ON
      ∧ s.iGrainRestLength ≠ 0 then
    let s1 := { s with
      iOutputStateRequested := PUMP_OUTPUT_STATE_OFF
      iOutputStateActual := PUMP_OUTPUT_STATE_OFF }
    if now ≥ s1.dtGrainRestEndTime then
      if s1.iOperatingMode = PUMP_OPERATING_MODE_OFF then
        { s1 with
          iControlState := PUMP_CONTROL_STOP
          iOutputStateRequested := PUMP_OUTPUT_STATE_OFF }
      else
        { s1 with
          iControlState := PUMP_CONTROL_VENT
          iOutputStateRequested := PUMP_OUTPUT_STATE_OFF
          iVentilationCycleRuntimeCount := 0 }
    else s1
  else s

/-- In `process`, everything before the "I/O Control Function": the maximum
temperature check and, when it does not trip, the ventilation block followed by
the grain rest block. -/
def stateControl (now : Int) (s : Pump) : Pump :=
  if maxPumpTemperatureExceeded s then
    { s with
      iControlState := PUMP_CONTROL_STOP
      iOutputStateRequested := PUMP_OUTPUT_STATE_OFF }
  else
    grainRestControl now (ventilationControl now s)

/-- In `process`, the "I/O Control Function": raise the state-change flag on a
mismatch, then match the pin and the actual state to the demand. -/
def ioControl (s : Pump) : Pump :=
  let s1 :=
    if s.iOutputStateRequested ≠ s.iOutputStateActual then
      { s with _bStateChangeOccurred := true }
    else s
  if s1.iOutputStateRequested = PUMP_OUTPUT_STATE_ON then
    let s2 :=
      if digitalRead s1 = s1.iPumpOffState then
        digitalWrite s1.iPumpOnState (waitForPhaseSync s1)
      else s1
    let s3 :=
      if s2.iOutputStateRequested ≠ s2.iOutputStateActual then
        launchCallbackInitLCDs (delay s2.iPumpRelaySwitchingDelay s2)
      else s2
    { s3 with iOutputStateActual := PUMP_OUTPUT_STATE_ON }
  else
    let s2 :=
      if digitalRead s1 = s1.iPumpOnState then
        digitalWrite s1.iPumpOffState (waitForPhaseSync s1)
      else s1
    let s3 :=
      if s2.iOutputStateRequested ≠ s2.iOutputStateActual then
        launchCallbackInitLCDs (delay s2.iPumpRelaySwitchingDelay s2)
      else s2
    { s3 with iOutputStateActual := PUMP_OUTPUT_STATE_OFF }

/-- The method `process`, called at second `now`. -/
def process (now : Int) (s : Pump) : Pump :=
  ioControl (stateControl now s)

/-- The method `beginMashingControl`. -/
def beginMashingControl (s : Pump) : Pump :=
  { s with bCurrentlyControllingMashing := true }

/-- The method `endMashingControl`. -/
def endMashingControl (s : Pump) : Pump :=
  { s with bCurrentlyControllingMashing := false }

/-- The method `temporaryInhibitGrainRestAsAroundPreheatSetPoint`. -/
def temporaryInhibitGrainRestAsAroundPreheatSetPoint (s : Pump) : Pump :=
  { s with bTempFlagForInhibitGrainRestAsAroundPreheatSetPoint := true }

/-- The method `temporaryPermitGrainRestAsAroundPreheatSetPoint`. -/
def temporaryPermitGrainRestAsAroundPreheatSetPoint (s : Pump) : Pump :=
  { s with bTempFlagForInhibitGrainRestAsAroundPreheatSetPoint := false }

/-- The method `switchPumpNegativeLogic`. -/
def switchPumpNegativeLogic (s : Pump) : Pump :=
  { s with
    iPumpOnState := PUMP_NEGATIVE_LOGIC_ON
    iPumpOffState := PUMP_NEGATIVE_LOGIC_OFF }

/-! ## Concrete states -/

/-- Zero-initialised static storage, as a file-scope `AcksenPump` object has
before its constructor runs, on a board with a 16-bit `int`. -/
def zeroStorage : Pump :=
  { iPumpOnState := 0, iPumpOffState := 0, bEnablePumpVentilation := false,
    iPumpVentilationCycles := 0, iPumpVentilationOnLength := 0,
    iPumpVentilationOffLength := 0, iOperatingMode := 0, iControlState := 0,
    iOutputStateRequested := 0, iOutputStateActual := 0,
    iVentilationCycleRuntimeCount := 0, dtVentEndTime := 0, dtVentStartTime := 0,
    dtGrainRestEndTime := 0, dtGrainRestPeriodStartTime := 0, iGrainRestLength := 0,
    iGrainRestPeriod := 0, bEnableMaxPumpTemperature := false, iMaxPumpTemperature := 0,
    fPumpTemperature := 0, bTempFlagForInhibitGrainRestAsAroundPreheatSetPoint := false,
    bEnableGrainRest := false, bEnableInhibitGrainRestAroundSetPoint := false,
    bEnablePhaseSync := false, iPhaseSyncPreActivationDelay := 0,
    bCurrentlyControllingMashing := false, iPumpRelaySwitchingDelay := 0,
    _iPumpOutputPin := 0, _iPhaseSyncInputPin := 0, _bStateChangeOccurred := false,
    pinLevel := 0, effects := [], INT_MAX := 32767 }

/-- A pump on output pin 5 without a sync pin, right after construction. -/
def freshPump : Pump := construct zeroStorage 5 (-1)

/-- The fresh pump toggled on at second 0, polled once, then told that the
temperature is 95 degrees (the default maximum is 93). -/
def hotVentingPump : Pump :=
  updatePumpTemperature 95 (process 0 (ToggleState 0 freshPump))

/-- The state `hotVentingPump` after the poll at second 1, which trips the
maximum temperature check. -/
def overheatedPump : Pump := process 1 hotVentingPump

/-- The fresh pump toggled on at second 0 and then put into a grain rest that
ends at second 60 by its caller. -/
def restingPump : Pump :=
  { ToggleState 0 freshPump with
    iControlState := PUMP_CONTROL_GRAIN_REST
    dtGrainRestEndTime := 60 }

/-- The fresh pump reconfigured to one ventilation cycle with an ON length of 0
seconds. -/
def zeroOnLengthPump : Pump :=
  { freshPump with iPumpVentilationCycles := 1, iPumpVentilationOnLength := 0 }

/-- The fresh pump with the ventilation sequence disabled. -/
def directPump : Pump :=
  { freshPump with bEnablePumpVentilation := false }

/-- The pump `directPump` toggled on at second 0 and polled once: it is ON, the
pin is at the ON level and the handler has been called once. -/
def runningPump : Pump := process 0 (ToggleState 0 directPump)

/-- The fresh pump toggled on at second 0 and polled once: it is in its first ON
sub-interval of the ventilation sequence, which ends at second 5. -/
def ventingPump : Pump := process 0 (ToggleState 0 freshPump)

/-- The running pump put into a grain rest that ends at second 60 by its
caller. -/
def grainRestFromRunningPump : Pump :=
  { runningPump with
    iControlState := PUMP_CONTROL_GRAIN_REST
    dtGrainRestEndTime := 60 }

/-- The fresh pump, on a board with a 16-bit `int`, with the grain rest period
set to 547 minutes. -/
def longPeriodPump16 : Pump :=
  { freshPump with iGrainRestPeriod := 547 }

/-- The fresh pump on a board with a 32-bit `int`, with the grain rest period
set to 40000000 minutes. -/
def longPeriodPump32 : Pump :=
  { freshPump with INT_MAX := 2147483647, iGrainRestPeriod := 40000000 }

/-- The pump `directPump` toggled on at second 0, not yet polled (requested
output ON, actual output OFF), then told that the temperature is 95 degrees. -/
def hotToggledPump : Pump :=
  updatePumpTemperature 95 (ToggleState 0 directPump)

/-- The venting pump after its caller has read the state-change flag and set the
public member `iOutputStateActual` back to OFF, while the requested output is
ON. -/
def ventingMismatchPump : Pump :=
  { (stateChangeOccurred ventingPump).2 with iOutputStateActual := PUMP_OUTPUT_STATE_OFF }

/-- The pump `directPump` toggled on at second 0 and, before any poll (requested
output ON, actual output OFF), put into a grain rest that ends at second 60 by
its caller. -/
def grainRestFromToggledPump : Pump :=
  { ToggleState 0 directPump with
    iControlState := PUMP_CONTROL_GRAIN_REST
    dtGrainRestEndTime := 60 }

/-- The venting pump after the poll at second 5: it is in its first OFF
sub-interval, which ends at second 7, with the cycle counter at 1. -/
def ventingOffPump : Pump := process 5 ventingPump

/-! ## Poll sequences -/

/-- The states after each of the `process` calls made at the seconds `ts`, in
order, starting from `s`. -/
def pollRun (s : Pump) : List Int → List Pump
  | [] => []
  | t :: ts => process t s :: pollRun (process t s) ts

/-- The requested output after each poll of a run, for the polls before the
first one whose resulting control state is not VENT. -/
def ventilationOutputs (run : List Pump) : List Int :=
  (run.takeWhile fun s => decide (s.iControlState = PUMP_CONTROL_VENT)).map
    fun s => s.iOutputStateRequested

/-- The sub-intervals of a sequence of observed outputs: one entry for each
maximal block of consecutive equal values. -/
def subIntervals (outputs : List Int) : List Int :=
  outputs.destutter (· ≠ ·)

/-- The outputs `ON, OFF, ON, ..., OFF, ON` of `n` ON/OFF pairs followed by one
more ON. -/
def onOffPairsThenOn : Nat → List Int
  | 0 => [PUMP_OUTPUT_STATE_ON]
  | n + 1 => PUMP_OUTPUT_STATE_ON :: PUMP_OUTPUT_STATE_OFF :: onOffPairsThenOn n

/-- A pump in the ventilation phase: control state VENT, operating mode ON, the
maximum temperature check not tripping, `N` configured cycles with ON length `a`
and OFF length `b`, cycle counter `k`, requested output `out`, and the current
sub-interval ending at second `e`. -/
def VentPhase (N a b : Int) (s : Pump) (k out e : Int) : Prop :=
  s.iControlState = PUMP_CONTROL_VENT ∧ s.iOperatingMode = PUMP_OPERATING_MODE_ON
    ∧ ¬ maxPumpTemperatureExceeded s
    ∧ s.iPumpVentilationCycles = N ∧ s.iPumpVentilationOnLength = a
    ∧ s.iPumpVentilationOffLength = b
    ∧ s.iVentilationCycleRuntimeCount = k ∧ s.iOutputStateRequested = out
    ∧ s.dtVentEndTime = e

instance (N a b : Int) (s : Pump) (k out e : Int) : Decidable (VentPhase N a b s k out e) := by
  unfold VentPhase; infer_instance

/-! ## Observations on the platform calls -/

/-- Number of calls of the change-notification handler in a list of platform
calls. -/
def callbackCount (l : List Effect) : Nat :=
  l.count Effect.callbackInitLCDs

/-- Number of `digitalWrite` calls on the output pin in a list of platform
calls. -/
def pinWriteCount (l : List Effect) : Nat :=
  l.countP fun e =>
    match e with
    | Effect.digitalWrite _ => true
    | _ => false

/-- The state with both advisory flags, `bCurrentlyControllingMashing` and
`bTempFlagForInhibitGrainRestAsAroundPreheatSetPoint`, cleared.  Two states
differ in these two flags at most exactly when this function maps them to the
same state. -/
def eraseAdvisoryFlags (s : Pump) : Pump :=
  { s with
    bCurrentlyControllingMashing := false
    bTempFlagForInhibitGrainRestAsAroundPreheatSetPoint := false }

/-! ## Sequences of calls -/

/-- A call of one of the public methods of the class, with its argument and,
for the methods that read the clock, the second at which it is made. -/
inductive Call where
  | ToggleState (now : Int)
  | process (now : Int)
  | turnOff
  | resetGrainRest (now : Int)
  | updatePumpTemperature (fNewPumpTemperature : ℚ)
  | stateChangeOccurred
  | beginMashingControl
  | endMashingControl
  | temporaryInhibitGrainRestAsAroundPreheatSetPoint
  | temporaryPermitGrainRestAsAroundPreheatSetPoint
  | switchPumpNegativeLogic
  deriving DecidableEq

/-- The state after one call. -/
def Call.run (c : Call) (s : Pump) : Pump :=
  match c with
  | Call.ToggleState now => AcksenPump.ToggleState now s
  | Call.process now => AcksenPump.process now s
  | Call.turnOff => AcksenPump.turnOff s
  | Call.resetGrainRest now => AcksenPump.resetGrainRest now s
  | Call.updatePumpTemperature q => AcksenPump.updatePumpTemperature q s
  | Call.stateChangeOccurred => (AcksenPump.stateChangeOccurred s).2
  | Call.beginMashingControl => AcksenPump.beginMashingControl s
  | Call.endMashingControl => AcksenPump.endMashingControl s
  | Call.temporaryInhibitGrainRestAsAroundPreheatSetPoint =>
      AcksenPump.temporaryInhibitGrainRestAsAroundPreheatSetPoint s
  | Call.temporaryPermitGrainRestAsAroundPreheatSetPoint =>
      AcksenPump.temporaryPermitGrainRestAsAroundPreheatSetPoint s
  | Call.switchPumpNegativeLogic => AcksenPump.switchPumpNegativeLogic s

/-- The state after a sequence of calls, made in order from the state `s`. -/
def runCalls (s : Pump) (calls : List Call) : Pump :=
  calls.foldl (fun u c => c.run u) s

/-- A state is reachable when some sequence of calls of the public methods leads
to it from a freshly constructed pump, whatever the storage held before the
constructor ran and whatever the two pin numbers. -/
def Reachable (s : Pump) : Prop :=
  ∃ (raw : Pump) (iPumpOutputPin iPhaseSyncInputPin : Int) (calls : List Call),
    s = runCalls (construct raw iPumpOutputPin iPhaseSyncInputPin) calls

/-- Whether a call is a call of `ToggleState`. -/
def Call.isToggleState (c : Call) : Bool :=
  match c with
  | Call.ToggleState _ => true
  | _ => false

/-- Consistency of the control state with the requested output and the operating
mode: the control state is STOPPED, VENT or ON; STOPPED goes with the requested
output OFF, ON with the requested output ON; the operating mode OFF goes with
STOPPED; VENT and ON go with the operating mode ON. -/
def Consistent (s : Pump) : Prop :=
  (s.iControlState = PUMP_CONTROL_STOP ∨ s.iControlState = PUMP_CONTROL_VENT
      ∨ s.iControlState = PUMP_CONTROL_ON)
    ∧ (s.iControlState = PUMP_CONTROL_STOP → s.iOutputStateRequested = PUMP_OUTPUT_STATE_OFF)
    ∧ (s.iControlState = PUMP_CONTROL_ON → s.iOutputStateRequested = PUMP_OUTPUT_STATE_ON)
    ∧ (s.iOperatingMode = PUMP_OPERATING_MODE_OFF → s.iControlState = PUMP_CONTROL_STOP)
    ∧ (s.iControlState = PUMP_CONTROL_VENT ∨ s.iControlState = PUMP_CONTROL_ON →
        s.iOperatingMode = PUMP_OPERATING_MODE_ON)

instance (s : Pump) : Decidable (Consistent s) := by
  unfold Consistent; infer_instance

/-! ## The bounded wait on the sync input -/

/-- The difference `millis() - start` of two `unsigned long` values, a 32-bit
counter that wraps around. -/
def elapsedMillis (start millis : Nat) : Nat :=
  (millis % 2 ^ 32 + (2 ^ 32 - start % 2 ^ 32)) % 2 ^ 32

/-- The loop of `waitForPin`.  Each pass of the loop takes one sample: the level
`digitalRead(pin)` returns, then the value `millis()` returns.  The list holds
the samples the passes will see, `i` counts the passes already made.  The
result is the returned value together with the number of passes made before the
one that returned, or `none` when the list ends while the loop is still
running. -/
def waitForPinLoop (value : Int) (timeout start : Nat) :
    Nat → List (Int × Nat) → Option (Bool × Nat)
  | _, [] => none
  | i, (level, millis) :: rest =>
    if level = value then some (true, i)
    else if elapsedMillis start millis > timeout then some (false, i)
    else waitForPinLoop value timeout start (i + 1) rest

/-- The method `waitForPin(pin, value, timeout)`, entered when `millis()` returns
`start`, over the samples of the pin and of the clock that follow. -/
def waitForPin (value : Int) (timeout start : Nat) (samples : List (Int × Nat)) :
    Option (Bool × Nat) :=
  waitForPinLoop value timeout start 0 samples

/-! ## Theorems -/

/-- The I/O control step of `process` writes four fields only: the state-change
flag, the pin level, the list of platform calls and the actual output state,
and the latter becomes ON exactly when the requested state is ON. -/
theorem ioControl_shape (s : Pump) :
    ∃ (f : Bool) (p : Int) (e : List Effect),
      ioControl s = { s with
        _bStateChangeOccurred := f
        pinLevel := p
        effects := e
        iOutputStateActual :=
          if s.iOutputStateRequested = PUMP_OUTPUT_STATE_ON then PUMP_OUTPUT_STATE_ON
          else PUMP_OUTPUT_STATE_OFF } := by
  unfold ioControl
  simp only [digitalRead, digitalWrite, delay, launchCallbackInitLCDs, waitForPhaseSync]
  split_ifs <;> exact ⟨_, _, _, rfl⟩

/-- C1. Thermal interlock: whatever the state and the time, when the maximum
temperature check is enabled and the temperature is at least the maximum, one
`process` call leaves the control state STOPPED, the requested output OFF and
the actual output OFF. -/
theorem process_thermal_interlock (now : Int) (s : Pump)
    (hE : s.bEnableMaxPumpTemperature = true)
    (hT : (s.iMaxPumpTemperature : ℚ) ≤ s.fPumpTemperature) :
    (process now s).iControlState = PUMP_CONTROL_STOP
      ∧ (process now s).iOutputStateRequested = PUMP_OUTPUT_STATE_OFF
      ∧ (process now s).iOutputStateActual = PUMP_OUTPUT_STATE_OFF := by
  have hX : maxPumpTemperatureExceeded s := ⟨hE, hT⟩
  obtain ⟨f, p, e, h⟩ := ioControl_shape (stateControl now s)
  simp only [process, h]
  simp [stateControl, hX, PUMP_OUTPUT_STATE_OFF, PUMP_OUTPUT_STATE_ON]

/-- Witness of C1: the venting pump at 95 degrees is stopped by the poll at
second 1. -/
theorem process_thermal_interlock_witness :
    hotVentingPump.iControlState = PUMP_CONTROL_VENT
      ∧ (process 1 hotVentingPump).iControlState = PUMP_CONTROL_STOP
      ∧ (process 1 hotVentingPump).iOutputStateRequested = PUMP_OUTPUT_STATE_OFF
      ∧ (process 1 hotVentingPump).iOutputStateActual = PUMP_OUTPUT_STATE_OFF :=
  ⟨by decide, process_thermal_interlock 1 hotVentingPump (by decide) (by decide)⟩

/-- C2. Toggle while interlocked is dropped: in a STOPPED state with the maximum
temperature check enabled and the temperature at least the maximum,
`ToggleState` returns the state it was given, every field included. -/
theorem ToggleState_interlocked_dropped (now : Int) (s : Pump)
    (hS : s.iControlState = PUMP_CONTROL_STOP)
    (hE : s.bEnableMaxPumpTemperature = true)
    (hT : (s.iMaxPumpTemperature : ℚ) ≤ s.fPumpTemperature) :
    ToggleState now s = s := by
  have hX : maxPumpTemperatureExceeded s := ⟨hE, hT⟩
  simp [ToggleState, hS, hX]

/-- Witness of C2: the overheated, stopped pump ignores a toggle at second 2. -/
theorem ToggleState_interlocked_dropped_witness :
    ToggleState 2 overheatedPump = overheatedPump :=
  ToggleState_interlocked_dropped 2 overheatedPump (by decide) (by decide) (by decide)

/-- The product of the grain rest period and 60 that `resetGrainRest` stores is
the mathematical product whenever that product is in the range of an `int`. -/
theorem wrapInt_of_fits (intMax : Nat) (x : Int) (h : FitsInt intMax x) :
    wrapInt intMax x = x := by
  obtain ⟨h1, h2⟩ := h
  have e : (x + ((intMax : Int) + 1)) % (2 * ((intMax : Int) + 1)) = x + ((intMax : Int) + 1) :=
    Int.emod_eq_of_lt (by omega) (by omega)
  unfold wrapInt
  rw [e]
  omega

/-- C3, as stated, fails: the product `iGrainRestPeriod * 60` is an `int`.  On a
board with a 16-bit `int` and a grain rest period of 547 minutes, `ToggleState`
at second 0 stores the period start -32716, not 547 * 60 = 32820; on a board
with a 32-bit `int` and a period of 40000000 minutes it stores -1894967296, not
2400000000. -/
theorem ToggleState_activation_counterexample :
    longPeriodPump16.iControlState = PUMP_CONTROL_STOP
      ∧ ¬ maxPumpTemperatureExceeded longPeriodPump16
      ∧ longPeriodPump16.iGrainRestPeriod * 60 = 32820
      ∧ (ToggleState 0 longPeriodPump16).dtGrainRestPeriodStartTime = -32716
      ∧ longPeriodPump32.iControlState = PUMP_CONTROL_STOP
      ∧ ¬ maxPumpTemperatureExceeded longPeriodPump32
      ∧ longPeriodPump32.iGrainRestPeriod * 60 = 2400000000
      ∧ (ToggleState 0 longPeriodPump32).dtGrainRestPeriodStartTime = -1894967296 := by
  decide

/-- C3, amended. Toggle activation: in a STOPPED state whose maximum temperature
check does not trip, `ToggleState` at second `now` sets the operating mode ON
and the grain rest end to `now`, and, when `iGrainRestPeriod * 60` is in the
range of an `int`, the grain rest period start to `now + iGrainRestPeriod * 60`;
with ventilation enabled it enters VENT with the requested output OFF and the
cycle counter 0, with ventilation disabled it enters ON with the requested
output ON. -/
theorem ToggleState_activation (now : Int) (s : Pump)
    (hS : s.iControlState = PUMP_CONTROL_STOP)
    (hN : ¬ maxPumpTemperatureExceeded s) :
    (ToggleState now s).iOperatingMode = PUMP_OPERATING_MODE_ON
      ∧ (FitsInt s.INT_MAX (s.iGrainRestPeriod * 60) →
          (ToggleState now s).dtGrainRestPeriodStartTime = now + s.iGrainRestPeriod * 60)
      ∧ (ToggleState now s).dtGrainRestEndTime = now
      ∧ (s.bEnablePumpVentilation = true →
          (ToggleState now s).iControlState = PUMP_CONTROL_VENT
            ∧ (ToggleState now s).iOutputStateRequested = PUMP_OUTPUT_STATE_OFF
            ∧ (ToggleState now s).iVentilationCycleRuntimeCount = 0)
      ∧ (s.bEnablePumpVentilation = false →
          (ToggleState now s).iControlState = PUMP_CONTROL_ON
            ∧ (ToggleState now s).iOutputStateRequested = PUMP_OUTPUT_STATE_ON) := by
  have hP : (ToggleState now s).dtGrainRestPeriodStartTime
      = now + wrapInt s.INT_MAX (s.iGrainRestPeriod * 60) := by
    cases hV : s.bEnablePumpVentilation <;>
      simp [ToggleState, resetGrainRest, hS, hN, hV]
  refine ⟨?_, fun hF => by rw [hP, wrapInt_of_fits _ _ hF], ?_, ?_, ?_⟩ <;>
    cases hV : s.bEnablePumpVentilation <;>
      simp [ToggleState, resetGrainRest, hS, hN, hV]

/-- Witness of C3, amended: the fresh pump (ventilation enabled, temperature 0,
grain rest period 5 minutes) toggled at second 7. -/
theorem ToggleState_activation_witness :
    FitsInt freshPump.INT_MAX (freshPump.iGrainRestPeriod * 60)
      ∧ (ToggleState 7 freshPump).dtGrainRestPeriodStartTime = 7 + 5 * 60
      ∧ (ToggleState 7 freshPump).iOperatingMode = PUMP_OPERATING_MODE_ON
      ∧ (FitsInt freshPump.INT_MAX (freshPump.iGrainRestPeriod * 60) →
          (ToggleState 7 freshPump).dtGrainRestPeriodStartTime
            = 7 + freshPump.iGrainRestPeriod * 60)
      ∧ (ToggleState 7 freshPump).dtGrainRestEndTime = 7
      ∧ (freshPump.bEnablePumpVentilation = true →
          (ToggleState 7 freshPump).iControlState = PUMP_CONTROL_VENT
            ∧ (ToggleState 7 freshPump).iOutputStateRequested = PUMP_OUTPUT_STATE_OFF
            ∧ (ToggleState 7 freshPump).iVentilationCycleRuntimeCount = 0)
      ∧ (freshPump.bEnablePumpVentilation = false →
          (ToggleState 7 freshPump).iControlState = PUMP_CONTROL_ON
            ∧ (ToggleState 7 freshPump).iOutputStateRequested = PUMP_OUTPUT_STATE_ON) :=
  ⟨by decide,
    (ToggleState_activation 7 freshPump (by decide) (by decide)).2.1 (by decide),
    ToggleState_activation 7 freshPump (by decide) (by decide)⟩

/-- C4. Toggle deactivation is unconditional: from VENT, ON or GRAIN_REST,
whatever the temperature and the other fields, `ToggleState` yields the control
state STOPPED, the operating mode OFF and the requested output OFF. -/
theorem ToggleState_deactivation (now : Int) (s : Pump)
    (hA : s.iControlState = PUMP_CONTROL_VENT ∨ s.iControlState = PUMP_CONTROL_ON
      ∨ s.iControlState = PUMP_CONTROL_GRAIN_REST) :
    (ToggleState now s).iControlState = PUMP_CONTROL_STOP
      ∧ (ToggleState now s).iOperatingMode = PUMP_OPERATING_MODE_OFF
      ∧ (ToggleState now s).iOutputStateRequested = PUMP_OUTPUT_STATE_OFF := by
  have hS : s.iControlState ≠ PUMP_CONTROL_STOP := by
    rcases hA with h | h | h <;> rw [h] <;> decide
  simp [ToggleState, hS]

/-- Witness of C4: the venting pump at 95 degrees is toggled off at second 3. -/
theorem ToggleState_deactivation_witness :
    (ToggleState 3 hotVentingPump).iControlState = PUMP_CONTROL_STOP
      ∧ (ToggleState 3 hotVentingPump).iOperatingMode = PUMP_OPERATING_MODE_OFF
      ∧ (ToggleState 3 hotVentingPump).iOutputStateRequested = PUMP_OUTPUT_STATE_OFF :=
  ToggleState_deactivation 3 hotVentingPump (Or.inl (by decide))

/-- C5, as stated, fails: the overheated pump is STOPPED with operating mode ON,
and two consecutive toggles are both ignored, so the operating mode is still ON
afterwards. -/
theorem ToggleState_pair_counterexample :
    overheatedPump.iControlState = PUMP_CONTROL_STOP
      ∧ (ToggleState 3 (ToggleState 2 overheatedPump)).iOperatingMode
          ≠ PUMP_OPERATING_MODE_OFF := by
  decide

/-- C5, amended. Toggle pair law: from a STOPPED state whose maximum temperature
check does not trip, and for either ventilation setting, two consecutive
`ToggleState` calls yield the control state STOPPED, the operating mode OFF and
the requested output OFF. -/
theorem ToggleState_pair (now₁ now₂ : Int) (s : Pump)
    (hS : s.iControlState = PUMP_CONTROL_STOP)
    (hN : ¬ maxPumpTemperatureExceeded s) :
    (ToggleState now₂ (ToggleState now₁ s)).iControlState = PUMP_CONTROL_STOP
      ∧ (ToggleState now₂ (ToggleState now₁ s)).iOperatingMode = PUMP_OPERATING_MODE_OFF
      ∧ (ToggleState now₂ (ToggleState now₁ s)).iOutputStateRequested
          = PUMP_OUTPUT_STATE_OFF := by
  have h1 : (ToggleState now₁ s).iControlState ≠ PUMP_CONTROL_STOP := by
    cases hV : s.bEnablePumpVentilation <;>
      simp [ToggleState, resetGrainRest, hS, hN, hV, PUMP_CONTROL_STOP, PUMP_CONTROL_VENT,
        PUMP_CONTROL_ON]
  generalize ToggleState now₁ s = s₁ at h1 ⊢
  simp [ToggleState, h1]

/-- Witness of C5, amended: the fresh pump toggled at seconds 4 and 9. -/
theorem ToggleState_pair_witness :
    (ToggleState 9 (ToggleState 4 freshPump)).iControlState = PUMP_CONTROL_STOP
      ∧ (ToggleState 9 (ToggleState 4 freshPump)).iOperatingMode = PUMP_OPERATING_MODE_OFF
      ∧ (ToggleState 9 (ToggleState 4 freshPump)).iOutputStateRequested
          = PUMP_OUTPUT_STATE_OFF :=
  ToggleState_pair 4 9 freshPump (by decide) (by decide)

/-- C8. Grain rest completion: in a GRAIN_REST state with operating mode ON, a
grain rest length other than 0, the maximum temperature check not tripping and
`now` at or past the grain rest end, `process` yields the control state VENT
with the ventilation cycle counter 0 and the requested and the actual output
both OFF; in particular the control state is not STOPPED. -/
theorem process_grain_rest_completion (now : Int) (s : Pump)
    (hC : s.iControlState = PUMP_CONTROL_GRAIN_REST)
    (hM : s.iOperatingMode = PUMP_OPERATING_MODE_ON)
    (hL : s.iGrainRestLength ≠ 0)
    (hN : ¬ maxPumpTemperatureExceeded s)
    (hT : now ≥ s.dtGrainRestEndTime) :
    (process now s).iControlState = PUMP_CONTROL_VENT
      ∧ (process now s).iVentilationCycleRuntimeCount = 0
      ∧ (process now s).iOutputStateRequested = PUMP_OUTPUT_STATE_OFF
      ∧ (process now s).iOutputStateActual = PUMP_OUTPUT_STATE_OFF
      ∧ (process now s).iControlState ≠ PUMP_CONTROL_STOP := by
  have hV : ventilationControl now s = s := by
    have : s.iControlState ≠ PUMP_CONTROL_VENT := by rw [hC]; decide
    simp [ventilationControl, this]
  have hG : grainRestControl now s = { s with
      iOutputStateRequested := PUMP_OUTPUT_STATE_OFF
      iOutputStateActual := PUMP_OUTPUT_STATE_OFF
      iControlState := PUMP_CONTROL_VENT
      iVentilationCycleRuntimeCount := 0 } := by
    have hO : PUMP_OPERATING_MODE_ON ≠ PUMP_OPERATING_MODE_OFF := by decide
    have hT2 : s.dtGrainRestEndTime ≤ now := hT
    simp only [grainRestControl, hC, hM, hL, hT2, hO, ne_eq, not_false_eq_true, and_self,
      if_true, if_false, ge_iff_le]
  obtain ⟨f, p, e, h⟩ := ioControl_shape (stateControl now s)
  simp only [process, h]
  simp only [stateControl, hN, if_false, hV, hG]
  decide

/-- Witness of C8: grain rest end 60, grain rest length 1, poll at second 60. -/
theorem process_grain_rest_completion_witness :
    restingPump.dtGrainRestEndTime = 60 ∧ restingPump.iGrainRestLength = 1
      ∧ (process 60 restingPump).iControlState = PUMP_CONTROL_VENT
      ∧ (process 60 restingPump).iVentilationCycleRuntimeCount = 0
      ∧ (process 60 restingPump).iOutputStateRequested = PUMP_OUTPUT_STATE_OFF
      ∧ (process 60 restingPump).iOutputStateActual = PUMP_OUTPUT_STATE_OFF
      ∧ (process 60 restingPump).iControlState ≠ PUMP_CONTROL_STOP :=
  ⟨by decide, by decide,
    process_grain_rest_completion 60 restingPump (by decide) (by decide) (by decide)
      (by decide) (by decide)⟩

/-- The initial setup statement keeps the requested output within OFF and ON. -/
theorem ventInitialSetup_requested (now : Int) (s : Pump)
    (hR : s.iOutputStateRequested = PUMP_OUTPUT_STATE_OFF
      ∨ s.iOutputStateRequested = PUMP_OUTPUT_STATE_ON) :
    (ventInitialSetup now s).iOutputStateRequested = PUMP_OUTPUT_STATE_OFF
      ∨ (ventInitialSetup now s).iOutputStateRequested = PUMP_OUTPUT_STATE_ON := by
  unfold ventInitialSetup
  split_ifs <;> first | exact hR | exact Or.inl rfl | exact Or.inr rfl

/-- The cycle end check keeps the requested output within OFF and ON. -/
theorem ventCycleEndCheck_requested (now : Int) (s : Pump)
    (hR : s.iOutputStateRequested = PUMP_OUTPUT_STATE_OFF
      ∨ s.iOutputStateRequested = PUMP_OUTPUT_STATE_ON) :
    (ventCycleEndCheck now s).iOutputStateRequested = PUMP_OUTPUT_STATE_OFF
      ∨ (ventCycleEndCheck now s).iOutputStateRequested = PUMP_OUTPUT_STATE_ON := by
  unfold ventCycleEndCheck
  split_ifs <;> first | exact hR | exact Or.inl rfl | exact Or.inr rfl

/-- The phase end check keeps the requested output within OFF and ON. -/
theorem ventPhaseEndCheck_requested (s : Pump)
    (hR : s.iOutputStateRequested = PUMP_OUTPUT_STATE_OFF
      ∨ s.iOutputStateRequested = PUMP_OUTPUT_STATE_ON) :
    (ventPhaseEndCheck s).iOutputStateRequested = PUMP_OUTPUT_STATE_OFF
      ∨ (ventPhaseEndCheck s).iOutputStateRequested = PUMP_OUTPUT_STATE_ON := by
  unfold ventPhaseEndCheck
  split_ifs <;> first | exact hR | exact Or.inl rfl | exact Or.inr rfl

/-- The ventilation block keeps the requested output within OFF and ON. -/
theorem ventilationControl_requested (now : Int) (s : Pump)
    (hR : s.iOutputStateRequested = PUMP_OUTPUT_STATE_OFF
      ∨ s.iOutputStateRequested = PUMP_OUTPUT_STATE_ON) :
    (ventilationControl now s).iOutputStateRequested = PUMP_OUTPUT_STATE_OFF
      ∨ (ventilationControl now s).iOutputStateRequested = PUMP_OUTPUT_STATE_ON := by
  unfold ventilationControl
  split_ifs
  · exact ventPhaseEndCheck_requested _
      (ventCycleEndCheck_requested now _ (ventInitialSetup_requested now s hR))
  · exact hR

/-- The grain rest block keeps the requested output within OFF and ON. -/
theorem grainRestControl_requested (now : Int) (s : Pump)
    (hR : s.iOutputStateRequested = PUMP_OUTPUT_STATE_OFF
      ∨ s.iOutputStateRequested = PUMP_OUTPUT_STATE_ON) :
    (grainRestControl now s).iOutputStateRequested = PUMP_OUTPUT_STATE_OFF
      ∨ (grainRestControl now s).iOutputStateRequested = PUMP_OUTPUT_STATE_ON := by
  unfold grainRestControl
  dsimp only
  split_ifs <;> first | exact hR | exact Or.inl rfl

/-- The state control part of `process` keeps the requested output within OFF and ON. -/
theorem stateControl_requested (now : Int) (s : Pump)
    (hR : s.iOutputStateRequested = PUMP_OUTPUT_STATE_OFF
      ∨ s.iOutputStateRequested = PUMP_OUTPUT_STATE_ON) :
    (stateControl now s).iOutputStateRequested = PUMP_OUTPUT_STATE_OFF
      ∨ (stateControl now s).iOutputStateRequested = PUMP_OUTPUT_STATE_ON := by
  unfold stateControl
  split_ifs
  · exact Or.inl rfl
  · exact grainRestControl_requested now _ (ventilationControl_requested now s hR)

/-- C9. Output reconciliation: for every state whose requested output is OFF or
ON and for every time, after `process` the actual output equals the requested
output. -/
theorem process_reconciles (now : Int) (s : Pump)
    (hR : s.iOutputStateRequested = PUMP_OUTPUT_STATE_OFF
      ∨ s.iOutputStateRequested = PUMP_OUTPUT_STATE_ON) :
    (process now s).iOutputStateActual = (process now s).iOutputStateRequested := by
  have h2 := stateControl_requested now s hR
  obtain ⟨f, p, e, h⟩ := ioControl_shape (stateControl now s)
  simp only [process, h]
  rcases h2 with h2 | h2 <;> simp [h2, PUMP_OUTPUT_STATE_OFF, PUMP_OUTPUT_STATE_ON]

/-- Witness of C9: the venting pump (requested output ON) polled at second 5. -/
theorem process_reconciles_witness :
    (process 5 hotVentingPump).iOutputStateActual
      = (process 5 hotVentingPump).iOutputStateRequested :=
  process_reconciles 5 hotVentingPump (Or.inr (by decide))

/-- C10. The state-change flag is a one-shot read: `stateChangeOccurred` returns
the value the flag had before the call and leaves the state with the flag false
and every other field as it was; a second consecutive call returns false. -/
theorem stateChangeOccurred_one_shot (s : Pump) :
    (stateChangeOccurred s).1 = s._bStateChangeOccurred
      ∧ (stateChangeOccurred s).2 = { s with _bStateChangeOccurred := false }
      ∧ (stateChangeOccurred (stateChangeOccurred s).2).1 = false := by
  cases hF : s._bStateChangeOccurred
  · have : s = { s with _bStateChangeOccurred := false } := by
      cases s; simp_all
    simp [stateChangeOccurred, hF]
    exact this
  · simp [stateChangeOccurred, hF]

/-! ### One poll of a venting pump -/

/-- With the control state VENT and the maximum temperature check not tripping,
`process` runs the three statements of the ventilation block and then the I/O
control, which writes the flag, the pin, the platform calls and the actual
output only. -/
theorem process_of_vent (t : Int) (s : Pump)
    (hC : s.iControlState = PUMP_CONTROL_VENT) (hN : ¬ maxPumpTemperatureExceeded s) :
    ∃ (f : Bool) (p : Int) (e : List Effect),
      process t s = { ventPhaseEndCheck (ventCycleEndCheck t (ventInitialSetup t s)) with
        _bStateChangeOccurred := f
        pinLevel := p
        effects := e
        iOutputStateActual :=
          if (ventPhaseEndCheck (ventCycleEndCheck t (ventInitialSetup t s))).iOutputStateRequested
              = PUMP_OUTPUT_STATE_ON then PUMP_OUTPUT_STATE_ON
          else PUMP_OUTPUT_STATE_OFF } := by
  have h1 : (ventInitialSetup t s).iControlState = PUMP_CONTROL_VENT := by
    unfold ventInitialSetup; split_ifs <;> exact hC
  have h2 : (ventCycleEndCheck t (ventInitialSetup t s)).iControlState = PUMP_CONTROL_VENT := by
    generalize ventInitialSetup t s = u at h1 ⊢
    unfold ventCycleEndCheck; split_ifs <;> exact h1
  have h3 : (ventPhaseEndCheck (ventCycleEndCheck t (ventInitialSetup t s))).iControlState
      ≠ PUMP_CONTROL_GRAIN_REST := by
    generalize ventCycleEndCheck t (ventInitialSetup t s) = u at h2 ⊢
    unfold ventPhaseEndCheck
    split_ifs
    · show PUMP_CONTROL_STOP ≠ PUMP_CONTROL_GRAIN_REST; decide
    · show PUMP_CONTROL_ON ≠ PUMP_CONTROL_GRAIN_REST; decide
    · rw [h2]; decide
    · rw [h2]; decide
  have h4 : stateControl t s = ventPhaseEndCheck (ventCycleEndCheck t (ventInitialSetup t s)) := by
    simp only [stateControl, hN, if_false, ventilationControl, hC, if_true]
    generalize ventPhaseEndCheck (ventCycleEndCheck t (ventInitialSetup t s)) = u at h3 ⊢
    simp [grainRestControl, h3]
  obtain ⟨f, p, e, h⟩ := ioControl_shape (stateControl t s)
  exact ⟨f, p, e, by rw [process, h, h4]⟩

/-- First poll after activation: the first ON sub-interval is opened. -/
theorem process_vent_start (N a b t : Int) (s : Pump) (e : Int)
    (h : VentPhase N a b s 0 PUMP_OUTPUT_STATE_OFF e) (hN : 0 ≤ N) (ha : 1 ≤ a) :
    VentPhase N a b (process t s) 0 PUMP_OUTPUT_STATE_ON (t + a) := by
  obtain ⟨hC, hM, hT, hcy, hon, hoff, hk, hout, he⟩ := h
  obtain ⟨f, p, e', hp⟩ := process_of_vent t s hC hT
  have hX : ventPhaseEndCheck (ventCycleEndCheck t (ventInitialSetup t s)) = { s with
      dtVentStartTime := t
      dtVentEndTime := t + a
      iOutputStateRequested := PUMP_OUTPUT_STATE_ON } := by
    have h1 : ventInitialSetup t s = { s with
        dtVentStartTime := t
        dtVentEndTime := t + a
        iOutputStateRequested := PUMP_OUTPUT_STATE_ON } := by
      simp [ventInitialSetup, hk, hout, hon]
    have h2 : ¬ (t ≥ t + a) := by omega
    have h3 : ¬ (s.iVentilationCycleRuntimeCount > s.iPumpVentilationCycles) := by omega
    rw [h1]
    simp only [ventCycleEndCheck, h2, if_false, ventPhaseEndCheck, h3]
  rw [hp, hX]
  exact ⟨hC, hM, hT, hcy, hon, hoff, hk, rfl, rfl⟩

/-- A poll inside an ON sub-interval changes nothing of the ventilation phase. -/
theorem process_vent_on_stay (N a b t : Int) (s : Pump) (k e : Int)
    (h : VentPhase N a b s k PUMP_OUTPUT_STATE_ON e) (hk : k ≤ N) (ht : t < e) :
    VentPhase N a b (process t s) k PUMP_OUTPUT_STATE_ON e := by
  obtain ⟨hC, hM, hT, hcy, hon, hoff, hcnt, hout, he⟩ := h
  obtain ⟨f, p, e', hp⟩ := process_of_vent t s hC hT
  have hX : ventPhaseEndCheck (ventCycleEndCheck t (ventInitialSetup t s)) = s := by
    have h0 : PUMP_OUTPUT_STATE_ON ≠ PUMP_OUTPUT_STATE_OFF := by decide
    have h1 : ventInitialSetup t s = s := by
      simp [ventInitialSetup, hout, h0]
    have h2 : ¬ (t ≥ s.dtVentEndTime) := by omega
    have h3 : ¬ (s.iVentilationCycleRuntimeCount > s.iPumpVentilationCycles) := by omega
    rw [h1]
    simp only [ventCycleEndCheck, h2, if_false, ventPhaseEndCheck, h3]
  rw [hp, hX]
  exact ⟨hC, hM, hT, hcy, hon, hoff, hcnt, hout, he⟩

/-- A poll at or after the end of an ON sub-interval, with the counter still
below the configured cycles: the counter is incremented and an OFF sub-interval
of length `b` is opened. -/
theorem process_vent_on_close (N a b t : Int) (s : Pump) (k e : Int)
    (h : VentPhase N a b s k PUMP_OUTPUT_STATE_ON e) (hk : k + 1 ≤ N) (ht : e ≤ t) :
    VentPhase N a b (process t s) (k + 1) PUMP_OUTPUT_STATE_OFF (t + b) := by
  obtain ⟨hC, hM, hT, hcy, hon, hoff, hcnt, hout, he⟩ := h
  obtain ⟨f, p, e', hp⟩ := process_of_vent t s hC hT
  have hX : ventPhaseEndCheck (ventCycleEndCheck t (ventInitialSetup t s)) = { s with
      iVentilationCycleRuntimeCount := k + 1
      iOutputStateRequested := PUMP_OUTPUT_STATE_OFF
      dtVentStartTime := t
      dtVentEndTime := t + b } := by
    have h0 : PUMP_OUTPUT_STATE_ON ≠ PUMP_OUTPUT_STATE_OFF := by decide
    have h1 : ventInitialSetup t s = s := by
      simp [ventInitialSetup, hout, h0]
    have h2 : t ≥ s.dtVentEndTime := by omega
    have h3 : ¬ (k + 1 > s.iPumpVentilationCycles) := by omega
    rw [h1]
    simp only [ventCycleEndCheck, h2, if_true, hout, hcnt, hoff, ventPhaseEndCheck, h3, if_false]
  rw [hp, hX]
  exact ⟨hC, hM, hT, hcy, hon, hoff, rfl, rfl, rfl⟩

/-- A poll at or after the end of an ON sub-interval that takes the counter above
the configured cycles: ventilation is complete, the pump is ON with the
requested output ON. -/
theorem process_vent_on_complete (N a b t : Int) (s : Pump) (k e : Int)
    (h : VentPhase N a b s k PUMP_OUTPUT_STATE_ON e) (hk : N < k + 1) (ht : e ≤ t) :
    (process t s).iControlState = PUMP_CONTROL_ON
      ∧ (process t s).iOutputStateRequested = PUMP_OUTPUT_STATE_ON
      ∧ (process t s).iVentilationCycleRuntimeCount = k + 1 := by
  obtain ⟨hC, hM, hT, hcy, hon, hoff, hcnt, hout, he⟩ := h
  obtain ⟨f, p, e', hp⟩ := process_of_vent t s hC hT
  have hX : ventPhaseEndCheck (ventCycleEndCheck t (ventInitialSetup t s)) = { s with
      iVentilationCycleRuntimeCount := k + 1
      dtVentStartTime := t
      dtVentEndTime := t + b
      iControlState := PUMP_CONTROL_ON
      iOutputStateRequested := PUMP_OUTPUT_STATE_ON } := by
    have h0 : PUMP_OUTPUT_STATE_ON ≠ PUMP_OUTPUT_STATE_OFF := by decide
    have h0' : PUMP_OPERATING_MODE_ON ≠ PUMP_OPERATING_MODE_OFF := by decide
    have h1 : ventInitialSetup t s = s := by
      simp [ventInitialSetup, hout, h0]
    have h2 : t ≥ s.dtVentEndTime := by omega
    have h3 : k + 1 > s.iPumpVentilationCycles := by omega
    rw [h1]
    simp only [ventCycleEndCheck, h2, if_true, hout, hcnt, hoff, ventPhaseEndCheck, h3, hM, h0',
      if_false]
  rw [hp, hX]
  exact ⟨rfl, rfl, rfl⟩

/-- A poll inside an OFF sub-interval changes nothing of the ventilation phase. -/
theorem process_vent_off_stay (N a b t : Int) (s : Pump) (k e : Int)
    (h : VentPhase N a b s k PUMP_OUTPUT_STATE_OFF e) (hk0 : k ≠ 0) (hk : k ≤ N) (ht : t < e) :
    VentPhase N a b (process t s) k PUMP_OUTPUT_STATE_OFF e := by
  obtain ⟨hC, hM, hT, hcy, hon, hoff, hcnt, hout, he⟩ := h
  obtain ⟨f, p, e', hp⟩ := process_of_vent t s hC hT
  have hX : ventPhaseEndCheck (ventCycleEndCheck t (ventInitialSetup t s)) = s := by
    have h1 : ventInitialSetup t s = s := by
      simp [ventInitialSetup, hcnt, hk0]
    have h2 : ¬ (t ≥ s.dtVentEndTime) := by omega
    have h3 : ¬ (s.iVentilationCycleRuntimeCount > s.iPumpVentilationCycles) := by omega
    rw [h1]
    simp only [ventCycleEndCheck, h2, if_false, ventPhaseEndCheck, h3]
  rw [hp, hX]
  exact ⟨hC, hM, hT, hcy, hon, hoff, hcnt, hout, he⟩

/-- A poll at or after the end of an OFF sub-interval: the next ON sub-interval
of length `a` is opened and the counter keeps its value. -/
theorem process_vent_off_close (N a b t : Int) (s : Pump) (k e : Int)
    (h : VentPhase N a b s k PUMP_OUTPUT_STATE_OFF e) (hk0 : k ≠ 0) (hk : k ≤ N) (ht : e ≤ t) :
    VentPhase N a b (process t s) k PUMP_OUTPUT_STATE_ON (t + a) := by
  obtain ⟨hC, hM, hT, hcy, hon, hoff, hcnt, hout, he⟩ := h
  obtain ⟨f, p, e', hp⟩ := process_of_vent t s hC hT
  have hX : ventPhaseEndCheck (ventCycleEndCheck t (ventInitialSetup t s)) = { s with
      iOutputStateRequested := PUMP_OUTPUT_STATE_ON
      dtVentStartTime := t
      dtVentEndTime := t + a } := by
    have h0 : PUMP_OUTPUT_STATE_OFF ≠ PUMP_OUTPUT_STATE_ON := by decide
    have h1 : ventInitialSetup t s = s := by
      simp [ventInitialSetup, hcnt, hk0]
    have h2 : t ≥ s.dtVentEndTime := by omega
    have h3 : ¬ (s.iVentilationCycleRuntimeCount > s.iPumpVentilationCycles) := by omega
    rw [h1]
    simp only [ventCycleEndCheck, h2, if_true, hout, h0, if_false, hon, ventPhaseEndCheck, h3]
  rw [hp, hX]
  exact ⟨hC, hM, hT, hcy, hon, hoff, hcnt, rfl, rfl⟩


/-! ### Runs of polls of a venting pump -/

/-- A poll that ends in VENT contributes its requested output to the observed
outputs. -/
theorem ventilationOutputs_cons_vent (s : Pump) (run : List Pump)
    (h : s.iControlState = PUMP_CONTROL_VENT) :
    ventilationOutputs (s :: run) = s.iOutputStateRequested :: ventilationOutputs run := by
  simp [ventilationOutputs, List.takeWhile_cons, h]

/-- The observed outputs end before the first poll that does not end in VENT. -/
theorem ventilationOutputs_cons_left (s : Pump) (run : List Pump)
    (h : s.iControlState ≠ PUMP_CONTROL_VENT) :
    ventilationOutputs (s :: run) = [] := by
  simp [ventilationOutputs, List.takeWhile_cons, h]

/-- Unfolding of `onOffPairsThenOn` at a successor. -/
theorem onOffPairsThenOn_succ (n : Nat) :
    onOffPairsThenOn (n + 1)
      = PUMP_OUTPUT_STATE_ON :: PUMP_OUTPUT_STATE_OFF :: onOffPairsThenOn n := rfl

/-- Sub-intervals still to come in a run that leaves VENT.  From an ON
sub-interval with counter `k`, the outputs observed from then on, the current
ON included, are `N - k` ON/OFF pairs and a last ON; from an OFF sub-interval
with counter `k` they are the current OFF followed by the same. -/
theorem vent_run_sub_intervals (N a b : Int) (ts : List Int) :
    (∀ (s : Pump) (k e : Int), VentPhase N a b s k PUMP_OUTPUT_STATE_ON e → 0 ≤ k → k ≤ N →
        (∃ u ∈ pollRun s ts, u.iControlState ≠ PUMP_CONTROL_VENT) →
        (ventilationOutputs (pollRun s ts)).destutter' (· ≠ ·) PUMP_OUTPUT_STATE_ON
          = onOffPairsThenOn (N - k).toNat)
    ∧ (∀ (s : Pump) (k e : Int), VentPhase N a b s k PUMP_OUTPUT_STATE_OFF e → 1 ≤ k → k ≤ N →
        (∃ u ∈ pollRun s ts, u.iControlState ≠ PUMP_CONTROL_VENT) →
        (ventilationOutputs (pollRun s ts)).destutter' (· ≠ ·) PUMP_OUTPUT_STATE_OFF
          = PUMP_OUTPUT_STATE_OFF :: onOffPairsThenOn (N - k).toNat) := by
  have hne : PUMP_OUTPUT_STATE_ON ≠ PUMP_OUTPUT_STATE_OFF := by decide
  induction ts with
  | nil =>
    constructor <;> intro s k e _ _ _ hL <;> simp [pollRun] at hL
  | cons t ts ih =>
    obtain ⟨ihOn, ihOff⟩ := ih
    constructor
    · intro s k e h hk0 hk hL
      rcases lt_or_le t e with hte | hte
      · have h' := process_vent_on_stay N a b t s k e h hk hte
        have hL' : ∃ u ∈ pollRun (process t s) ts, u.iControlState ≠ PUMP_CONTROL_VENT := by
          obtain ⟨u, hu, hc⟩ := hL
          simp only [pollRun, List.mem_cons] at hu
          rcases hu with rfl | hu
          · exact absurd h'.1 hc
          · exact ⟨u, hu, hc⟩
        rw [pollRun, ventilationOutputs_cons_vent _ _ h'.1, h'.2.2.2.2.2.2.2.1,
          List.destutter'_cons_neg _ (by simp)]
        exact ihOn _ k e h' hk0 hk hL'
      · rcases lt_or_le k N with hkN | hkN
        · have h' := process_vent_on_close N a b t s k e h (by omega) hte
          have hL' : ∃ u ∈ pollRun (process t s) ts, u.iControlState ≠ PUMP_CONTROL_VENT := by
            obtain ⟨u, hu, hc⟩ := hL
            simp only [pollRun, List.mem_cons] at hu
            rcases hu with rfl | hu
            · exact absurd h'.1 hc
            · exact ⟨u, hu, hc⟩
          rw [pollRun, ventilationOutputs_cons_vent _ _ h'.1, h'.2.2.2.2.2.2.2.1,
            List.destutter'_cons_pos _ hne, ihOff _ (k + 1) (t + b) h' (by omega) (by omega) hL']
          have : (N - k).toNat = (N - (k + 1)).toNat + 1 := by omega
          rw [this, onOffPairsThenOn_succ]
        · have h' := process_vent_on_complete N a b t s k e h (by omega) hte
          have hc : (process t s).iControlState ≠ PUMP_CONTROL_VENT := by
            rw [h'.1]; decide
          rw [pollRun, ventilationOutputs_cons_left _ _ hc, List.destutter'_nil]
          have : (N - k).toNat = 0 := by omega
          rw [this]; rfl
    · intro s k e h hk1 hk hL
      have hk0 : k ≠ 0 := by omega
      rcases lt_or_le t e with hte | hte
      · have h' := process_vent_off_stay N a b t s k e h hk0 hk hte
        have hL' : ∃ u ∈ pollRun (process t s) ts, u.iControlState ≠ PUMP_CONTROL_VENT := by
          obtain ⟨u, hu, hc⟩ := hL
          simp only [pollRun, List.mem_cons] at hu
          rcases hu with rfl | hu
          · exact absurd h'.1 hc
          · exact ⟨u, hu, hc⟩
        rw [pollRun, ventilationOutputs_cons_vent _ _ h'.1, h'.2.2.2.2.2.2.2.1,
          List.destutter'_cons_neg _ (by simp)]
        exact ihOff _ k e h' hk1 hk hL'
      · have h' := process_vent_off_close N a b t s k e h hk0 hk hte
        have hL' : ∃ u ∈ pollRun (process t s) ts, u.iControlState ≠ PUMP_CONTROL_VENT := by
          obtain ⟨u, hu, hc⟩ := hL
          simp only [pollRun, List.mem_cons] at hu
          rcases hu with rfl | hu
          · exact absurd h'.1 hc
          · exact ⟨u, hu, hc⟩
        rw [pollRun, ventilationOutputs_cons_vent _ _ h'.1, h'.2.2.2.2.2.2.2.1,
          List.destutter'_cons_pos _ hne.symm, ihOn _ k (t + a) h' (by omega) hk hL']

/-- Number of ON entries of `onOffPairsThenOn n`. -/
theorem count_on_onOffPairsThenOn (n : Nat) :
    (onOffPairsThenOn n).count PUMP_OUTPUT_STATE_ON = n + 1 := by
  induction n with
  | zero => decide
  | succ n ih =>
    have h : PUMP_OUTPUT_STATE_ON ≠ PUMP_OUTPUT_STATE_OFF := by decide
    rw [onOffPairsThenOn_succ, List.count_cons_self, List.count_cons_of_ne h, ih]

/-- Number of OFF entries of `onOffPairsThenOn n`. -/
theorem count_off_onOffPairsThenOn (n : Nat) :
    (onOffPairsThenOn n).count PUMP_OUTPUT_STATE_OFF = n := by
  induction n with
  | zero => decide
  | succ n ih =>
    have h : PUMP_OUTPUT_STATE_OFF ≠ PUMP_OUTPUT_STATE_ON := by decide
    rw [onOffPairsThenOn_succ, List.count_cons_of_ne h, List.count_cons_self, ih]

/-- A freshly toggled pump with ventilation enabled is in the ventilation phase
with counter 0 and requested output OFF. -/
theorem ToggleState_ventPhase (t0 : Int) (s0 : Pump)
    (hS : s0.iControlState = PUMP_CONTROL_STOP)
    (hV : s0.bEnablePumpVentilation = true)
    (hT : ¬ maxPumpTemperatureExceeded s0) :
    VentPhase s0.iPumpVentilationCycles s0.iPumpVentilationOnLength
      s0.iPumpVentilationOffLength (ToggleState t0 s0) 0 PUMP_OUTPUT_STATE_OFF
      s0.dtVentEndTime := by
  have hE : ToggleState t0 s0 = { s0 with
      iControlState := PUMP_CONTROL_VENT
      iOutputStateRequested := PUMP_OUTPUT_STATE_OFF
      iVentilationCycleRuntimeCount := 0
      iOperatingMode := PUMP_OPERATING_MODE_ON
      dtGrainRestPeriodStartTime := t0 + wrapInt s0.INT_MAX (s0.iGrainRestPeriod * 60)
      dtGrainRestEndTime := t0 } := by
    simp only [ToggleState, hS, if_true, hT, if_false, hV, resetGrainRest]
  rw [hE]
  exact ⟨rfl, rfl, hT, rfl, rfl, rfl, rfl, rfl, rfl⟩

/-- Sub-intervals of a whole ventilation phase.  From a freshly toggled VENT
state with `N ≥ 0` configured cycles and an ON length of at least one second, a
run of polls that leaves VENT shows `N` ON/OFF pairs followed by one more ON. -/
theorem toggled_run_sub_intervals (t0 : Int) (ts : List Int) (s0 : Pump)
    (hS : s0.iControlState = PUMP_CONTROL_STOP)
    (hV : s0.bEnablePumpVentilation = true)
    (hT : ¬ maxPumpTemperatureExceeded s0)
    (hN : 0 ≤ s0.iPumpVentilationCycles)
    (hA : 1 ≤ s0.iPumpVentilationOnLength)
    (hL : ∃ u ∈ pollRun (ToggleState t0 s0) ts, u.iControlState ≠ PUMP_CONTROL_VENT) :
    subIntervals (ventilationOutputs (pollRun (ToggleState t0 s0) ts))
      = onOffPairsThenOn s0.iPumpVentilationCycles.toNat := by
  have h0 := ToggleState_ventPhase t0 s0 hS hV hT
  cases ts with
  | nil => simp [pollRun] at hL
  | cons t ts =>
    have h1 := process_vent_start _ _ _ t _ _ h0 hN hA
    have hL' : ∃ u ∈ pollRun (process t (ToggleState t0 s0)) ts,
        u.iControlState ≠ PUMP_CONTROL_VENT := by
      obtain ⟨u, hu, hc⟩ := hL
      simp only [pollRun, List.mem_cons] at hu
      rcases hu with rfl | hu
      · exact absurd h1.1 hc
      · exact ⟨u, hu, hc⟩
    have h2 := (vent_run_sub_intervals _ _ _ ts).1 _ 0 _ h1 le_rfl hN hL'
    rw [pollRun, ventilationOutputs_cons_vent _ _ h1.1, h1.2.2.2.2.2.2.2.1, subIntervals,
      List.destutter_cons', h2, sub_zero]

/-- C6, as stated, fails: with the default configuration (3 cycles, ON length 5,
OFF length 2) and the non-decreasing poll times below, the run leaves VENT at
second 26 after four ON sub-intervals and three OFF sub-intervals, not three and
three; and with one cycle and an ON length of 0 the first sub-interval observed
is an OFF one. -/
theorem ventilation_interval_count_counterexample :
    freshPump.iControlState = PUMP_CONTROL_STOP
      ∧ freshPump.bEnablePumpVentilation = true
      ∧ ¬ maxPumpTemperatureExceeded freshPump
      ∧ freshPump.iPumpVentilationCycles = 3
      ∧ List.Pairwise (· ≤ ·) ([0, 2, 5, 6, 7, 12, 14, 19, 21, 26] : List Int)
      ∧ ((pollRun (ToggleState 0 freshPump) [0, 2, 5, 6, 7, 12, 14, 19, 21, 26]).map
            fun u => u.iControlState)
          = [PUMP_CONTROL_VENT, PUMP_CONTROL_VENT, PUMP_CONTROL_VENT, PUMP_CONTROL_VENT,
              PUMP_CONTROL_VENT, PUMP_CONTROL_VENT, PUMP_CONTROL_VENT, PUMP_CONTROL_VENT,
              PUMP_CONTROL_VENT, PUMP_CONTROL_ON]
      ∧ subIntervals (ventilationOutputs
            (pollRun (ToggleState 0 freshPump) [0, 2, 5, 6, 7, 12, 14, 19, 21, 26]))
          = [PUMP_OUTPUT_STATE_ON, PUMP_OUTPUT_STATE_OFF, PUMP_OUTPUT_STATE_ON,
              PUMP_OUTPUT_STATE_OFF, PUMP_OUTPUT_STATE_ON, PUMP_OUTPUT_STATE_OFF,
              PUMP_OUTPUT_STATE_ON]
      ∧ (subIntervals (ventilationOutputs
            (pollRun (ToggleState 0 freshPump) [0, 2, 5, 6, 7, 12, 14, 19, 21, 26]))).count
          PUMP_OUTPUT_STATE_ON ≠ 3
      ∧ zeroOnLengthPump.iControlState = PUMP_CONTROL_STOP
      ∧ zeroOnLengthPump.iPumpVentilationCycles = 1
      ∧ ((pollRun (ToggleState 0 zeroOnLengthPump) [0, 2, 3]).map fun u => u.iControlState)
          = [PUMP_CONTROL_VENT, PUMP_CONTROL_VENT, PUMP_CONTROL_ON]
      ∧ subIntervals (ventilationOutputs (pollRun (ToggleState 0 zeroOnLengthPump) [0, 2, 3]))
          = [PUMP_OUTPUT_STATE_OFF, PUMP_OUTPUT_STATE_ON] := by
  refine ⟨by decide, by decide, by decide, by decide, by decide, ?_, ?_, ?_,
    by decide, by decide, ?_, ?_⟩
  · rfl
  · rfl
  · decide
  · rfl
  · rfl

/-- C6, amended. Ventilation interval count: for `N ≥ 1` configured cycles, an ON
length of at least one second and every non-decreasing sequence of poll times,
starting from a freshly toggled VENT state whose maximum temperature check does
not trip: if the run of `process` calls leaves VENT, then the requested outputs
observed up to the poll that leaves form `N + 1` ON sub-intervals and `N` OFF
sub-intervals, alternating, starting and ending with ON, however many polls
fall inside each sub-interval. -/
theorem ventilation_interval_count (t0 : Int) (ts : List Int) (s0 : Pump)
    (hS : s0.iControlState = PUMP_CONTROL_STOP)
    (hV : s0.bEnablePumpVentilation = true)
    (hT : ¬ maxPumpTemperatureExceeded s0)
    (hN : 1 ≤ s0.iPumpVentilationCycles)
    (hA : 1 ≤ s0.iPumpVentilationOnLength)
    (_hTs : List.Pairwise (· ≤ ·) ts)
    (hL : ∃ u ∈ pollRun (ToggleState t0 s0) ts, u.iControlState ≠ PUMP_CONTROL_VENT) :
    subIntervals (ventilationOutputs (pollRun (ToggleState t0 s0) ts))
        = onOffPairsThenOn s0.iPumpVentilationCycles.toNat
      ∧ ((subIntervals (ventilationOutputs (pollRun (ToggleState t0 s0) ts))).count
          PUMP_OUTPUT_STATE_ON : Int) = s0.iPumpVentilationCycles + 1
      ∧ ((subIntervals (ventilationOutputs (pollRun (ToggleState t0 s0) ts))).count
          PUMP_OUTPUT_STATE_OFF : Int) = s0.iPumpVentilationCycles := by
  have hEq := toggled_run_sub_intervals t0 ts s0 hS hV hT (by omega) hA hL
  rw [hEq, count_on_onOffPairsThenOn, count_off_onOffPairsThenOn]
  refine ⟨rfl, ?_, ?_⟩ <;> push_cast <;> omega

/-- Witness of C6, amended: the default configuration polled at the seconds
`0, 2, 5, 6, 7, 12, 14, 19, 21, 26`. -/
theorem ventilation_interval_count_witness :
    subIntervals (ventilationOutputs
        (pollRun (ToggleState 0 freshPump) [0, 2, 5, 6, 7, 12, 14, 19, 21, 26]))
        = onOffPairsThenOn freshPump.iPumpVentilationCycles.toNat
      ∧ ((subIntervals (ventilationOutputs
          (pollRun (ToggleState 0 freshPump) [0, 2, 5, 6, 7, 12, 14, 19, 21, 26]))).count
          PUMP_OUTPUT_STATE_ON : Int) = freshPump.iPumpVentilationCycles + 1
      ∧ ((subIntervals (ventilationOutputs
          (pollRun (ToggleState 0 freshPump) [0, 2, 5, 6, 7, 12, 14, 19, 21, 26]))).count
          PUMP_OUTPUT_STATE_OFF : Int) = freshPump.iPumpVentilationCycles :=
  ventilation_interval_count 0 [0, 2, 5, 6, 7, 12, 14, 19, 21, 26] freshPump
    (by decide) (by decide) (by decide) (by decide) (by decide) (by decide)
    ⟨process 26 (process 21 (process 19 (process 14 (process 12 (process 7 (process 6
      (process 5 (process 2 (process 0 (ToggleState 0 freshPump)))))))))),
      by simp [pollRun], by decide⟩


/-! ### Polling once per second -/

/-- The I/O control step raises the state-change flag exactly on a mismatch of
the requested and the actual output, and never clears it. -/
theorem ioControl_flag (u : Pump) :
    (ioControl u)._bStateChangeOccurred
      = (u._bStateChangeOccurred || decide (u.iOutputStateRequested ≠ u.iOutputStateActual)) := by
  unfold ioControl
  simp only [digitalRead, digitalWrite, delay, launchCallbackInitLCDs, waitForPhaseSync]
  split_ifs <;> simp_all

/-- The pin level after the I/O control step. -/
theorem ioControl_pinLevel (u : Pump) :
    (ioControl u).pinLevel
      = if u.iOutputStateRequested = PUMP_OUTPUT_STATE_ON then
          (if u.pinLevel = u.iPumpOffState then u.iPumpOnState else u.pinLevel)
        else (if u.pinLevel = u.iPumpOnState then u.iPumpOffState else u.pinLevel) := by
  unfold ioControl
  simp only [digitalRead, digitalWrite, delay, launchCallbackInitLCDs, waitForPhaseSync]
  split_ifs <;> rfl

/-- The I/O control step calls the handler once on a mismatch of the requested
and the actual output, and not at all otherwise. -/
theorem ioControl_callbackCount (u : Pump) :
    callbackCount (ioControl u).effects
      = callbackCount u.effects
        + if u.iOutputStateRequested ≠ u.iOutputStateActual then 1 else 0 := by
  unfold ioControl
  simp only [digitalRead, digitalWrite, delay, launchCallbackInitLCDs, waitForPhaseSync]
  split_ifs <;> simp_all [callbackCount, List.count_append, List.count_cons]

/-- The I/O control step writes the pin once when the pin shows the level
opposite to the demand, and not at all otherwise. -/
theorem ioControl_pinWriteCount (u : Pump) :
    pinWriteCount (ioControl u).effects
      = pinWriteCount u.effects
        + if (u.iOutputStateRequested = PUMP_OUTPUT_STATE_ON ∧ u.pinLevel = u.iPumpOffState)
              ∨ (u.iOutputStateRequested ≠ PUMP_OUTPUT_STATE_ON ∧ u.pinLevel = u.iPumpOnState)
          then 1 else 0 := by
  unfold ioControl
  simp only [digitalRead, digitalWrite, delay, launchCallbackInitLCDs, waitForPhaseSync]
  split_ifs <;> simp_all [pinWriteCount, List.countP_append, List.countP_cons]

/-! ### What the state-machine part of `process` leaves alone -/

/-- The state-machine part of `process` writes neither the state-change flag, nor
the pin, nor the list of platform calls, nor the polarity pair. -/
theorem stateControl_frame (now : Int) (s : Pump) :
    (stateControl now s)._bStateChangeOccurred = s._bStateChangeOccurred
      ∧ (stateControl now s).pinLevel = s.pinLevel
      ∧ (stateControl now s).effects = s.effects
      ∧ (stateControl now s).iPumpOnState = s.iPumpOnState
      ∧ (stateControl now s).iPumpOffState = s.iPumpOffState := by
  have h1 : ∀ u : Pump, (ventInitialSetup now u)._bStateChangeOccurred = u._bStateChangeOccurred
      ∧ (ventInitialSetup now u).pinLevel = u.pinLevel
      ∧ (ventInitialSetup now u).effects = u.effects
      ∧ (ventInitialSetup now u).iPumpOnState = u.iPumpOnState
      ∧ (ventInitialSetup now u).iPumpOffState = u.iPumpOffState := by
    intro u; unfold ventInitialSetup; split_ifs <;> exact ⟨rfl, rfl, rfl, rfl, rfl⟩
  have h2 : ∀ u : Pump, (ventCycleEndCheck now u)._bStateChangeOccurred = u._bStateChangeOccurred
      ∧ (ventCycleEndCheck now u).pinLevel = u.pinLevel
      ∧ (ventCycleEndCheck now u).effects = u.effects
      ∧ (ventCycleEndCheck now u).iPumpOnState = u.iPumpOnState
      ∧ (ventCycleEndCheck now u).iPumpOffState = u.iPumpOffState := by
    intro u; unfold ventCycleEndCheck; split_ifs <;> exact ⟨rfl, rfl, rfl, rfl, rfl⟩
  have h3 : ∀ u : Pump, (ventPhaseEndCheck u)._bStateChangeOccurred = u._bStateChangeOccurred
      ∧ (ventPhaseEndCheck u).pinLevel = u.pinLevel
      ∧ (ventPhaseEndCheck u).effects = u.effects
      ∧ (ventPhaseEndCheck u).iPumpOnState = u.iPumpOnState
      ∧ (ventPhaseEndCheck u).iPumpOffState = u.iPumpOffState := by
    intro u; unfold ventPhaseEndCheck; split_ifs <;> exact ⟨rfl, rfl, rfl, rfl, rfl⟩
  have h4 : ∀ u : Pump, (ventilationControl now u)._bStateChangeOccurred = u._bStateChangeOccurred
      ∧ (ventilationControl now u).pinLevel = u.pinLevel
      ∧ (ventilationControl now u).effects = u.effects
      ∧ (ventilationControl now u).iPumpOnState = u.iPumpOnState
      ∧ (ventilationControl now u).iPumpOffState = u.iPumpOffState := by
    intro u; unfold ventilationControl
    split_ifs
    · obtain ⟨a1, a2, a3, a4, a5⟩ := h1 u
      obtain ⟨b1, b2, b3, b4, b5⟩ := h2 (ventInitialSetup now u)
      obtain ⟨c1, c2, c3, c4, c5⟩ := h3 (ventCycleEndCheck now (ventInitialSetup now u))
      exact ⟨c1.trans (b1.trans a1), c2.trans (b2.trans a2), c3.trans (b3.trans a3),
        c4.trans (b4.trans a4), c5.trans (b5.trans a5)⟩
    · exact ⟨rfl, rfl, rfl, rfl, rfl⟩
  have h5 : ∀ u : Pump, (grainRestControl now u)._bStateChangeOccurred = u._bStateChangeOccurred
      ∧ (grainRestControl now u).pinLevel = u.pinLevel
      ∧ (grainRestControl now u).effects = u.effects
      ∧ (grainRestControl now u).iPumpOnState = u.iPumpOnState
      ∧ (grainRestControl now u).iPumpOffState = u.iPumpOffState := by
    intro u; unfold grainRestControl; dsimp only; split_ifs <;> exact ⟨rfl, rfl, rfl, rfl, rfl⟩
  unfold stateControl
  split_ifs
  · exact ⟨rfl, rfl, rfl, rfl, rfl⟩
  · obtain ⟨a1, a2, a3, a4, a5⟩ := h4 s
    obtain ⟨b1, b2, b3, b4, b5⟩ := h5 (ventilationControl now s)
    exact ⟨b1.trans a1, b2.trans a2, b3.trans a3, b4.trans a4, b5.trans a5⟩

/-- The flag after `process`: the flag before, or a mismatch of the requested and
the actual output as the state-machine part leaves them. -/
theorem process_flag (now : Int) (s : Pump) :
    (process now s)._bStateChangeOccurred
      = (s._bStateChangeOccurred
          || decide ((stateControl now s).iOutputStateRequested
              ≠ (stateControl now s).iOutputStateActual)) := by
  rw [process, ioControl_flag, (stateControl_frame now s).1]

/-- The requested output after `process` is the one the state-machine part
leaves. -/
theorem process_requested (now : Int) (s : Pump) :
    (process now s).iOutputStateRequested = (stateControl now s).iOutputStateRequested := by
  obtain ⟨f, p, e, h⟩ := ioControl_shape (stateControl now s)
  rw [process, h]

/-- The actual output after `process` is ON when the requested output left by the
state-machine part is ON, and OFF otherwise. -/
theorem process_actual (now : Int) (s : Pump) :
    (process now s).iOutputStateActual
      = if (stateControl now s).iOutputStateRequested = PUMP_OUTPUT_STATE_ON
        then PUMP_OUTPUT_STATE_ON else PUMP_OUTPUT_STATE_OFF := by
  obtain ⟨f, p, e, h⟩ := ioControl_shape (stateControl now s)
  rw [process, h]

/-- C12. Negative-logic polarity: for a pump in the default, positive polarity,
after `switchPumpNegativeLogic` the level encoding ON is the level that encoded
OFF before the call, the level encoding OFF is the level that encoded ON before
the call, and nothing else has changed: the state after the call is the state
before it with the two levels exchanged. -/
theorem switchPumpNegativeLogic_swaps (s : Pump)
    (hOn : s.iPumpOnState = PUMP_POSITIVE_LOGIC_ON)
    (hOff : s.iPumpOffState = PUMP_POSITIVE_LOGIC_OFF) :
    (switchPumpNegativeLogic s).iPumpOnState = s.iPumpOffState
      ∧ (switchPumpNegativeLogic s).iPumpOffState = s.iPumpOnState
      ∧ switchPumpNegativeLogic s
          = { s with iPumpOnState := s.iPumpOffState, iPumpOffState := s.iPumpOnState } := by
  have h1 : PUMP_NEGATIVE_LOGIC_ON = s.iPumpOffState := by rw [hOff]; rfl
  have h2 : PUMP_NEGATIVE_LOGIC_OFF = s.iPumpOnState := by rw [hOn]; rfl
  unfold switchPumpNegativeLogic
  rw [h1, h2]
  exact ⟨rfl, rfl, rfl⟩

/-- Witness of C12: the venting pump, which is in the positive polarity. -/
theorem switchPumpNegativeLogic_swaps_witness :
    (switchPumpNegativeLogic ventingPump).iPumpOnState = ventingPump.iPumpOffState
      ∧ (switchPumpNegativeLogic ventingPump).iPumpOffState = ventingPump.iPumpOnState
      ∧ switchPumpNegativeLogic ventingPump
          = { ventingPump with
              iPumpOnState := ventingPump.iPumpOffState
              iPumpOffState := ventingPump.iPumpOnState } :=
  switchPumpNegativeLogic_swaps ventingPump (by decide) (by decide)

/-- C13. Explicit shutdown: for every state whose pin is at the ON level or at
the OFF level, the two levels being different, after `turnOff` the control state
is STOPPED, the operating mode OFF, the requested output OFF, the actual output
OFF and the pin at the OFF level. -/
theorem turnOff_shutdown (s : Pump)
    (hPin : s.pinLevel = s.iPumpOnState ∨ s.pinLevel = s.iPumpOffState)
    (hPol : s.iPumpOnState ≠ s.iPumpOffState) :
    (turnOff s).iControlState = PUMP_CONTROL_STOP
      ∧ (turnOff s).iOperatingMode = PUMP_OPERATING_MODE_OFF
      ∧ (turnOff s).iOutputStateRequested = PUMP_OUTPUT_STATE_OFF
      ∧ (turnOff s).iOutputStateActual = PUMP_OUTPUT_STATE_OFF
      ∧ (turnOff s).pinLevel = s.iPumpOffState
      ∧ (turnOff s).iPumpOffState = s.iPumpOffState := by
  unfold turnOff
  simp only [digitalRead, digitalWrite, delay, launchCallbackInitLCDs, waitForPhaseSync]
  rcases hPin with h | h
  · have h' : s.pinLevel ≠ s.iPumpOffState := by rw [h]; exact hPol
    split_ifs <;> simp_all
  · have h' : s.pinLevel ≠ s.iPumpOnState := by rw [h]; exact hPol.symm
    split_ifs <;> simp_all

/-- Witness of C13: the running pump, whose pin is at the ON level. -/
theorem turnOff_shutdown_witness :
    runningPump.pinLevel = runningPump.iPumpOnState
      ∧ (turnOff runningPump).iControlState = PUMP_CONTROL_STOP
      ∧ (turnOff runningPump).iOperatingMode = PUMP_OPERATING_MODE_OFF
      ∧ (turnOff runningPump).iOutputStateRequested = PUMP_OUTPUT_STATE_OFF
      ∧ (turnOff runningPump).iOutputStateActual = PUMP_OUTPUT_STATE_OFF
      ∧ (turnOff runningPump).pinLevel = runningPump.iPumpOffState
      ∧ (turnOff runningPump).iPumpOffState = runningPump.iPumpOffState :=
  ⟨by decide, turnOff_shutdown runningPump (Or.inl (by decide)) (by decide)⟩

/-- C18. The flag is set only by reconciliation and never cleared by the
controller: after `process` the flag is the flag before the call or a mismatch
of the requested and the actual output as they stand after the maximum
temperature, ventilation and grain rest steps of that call; `ToggleState`,
`turnOff`, `resetGrainRest` and `updatePumpTemperature` leave the flag as it
was. -/
theorem flag_set_only_by_reconciliation (now : Int) (q : ℚ) (s : Pump) :
    (process now s)._bStateChangeOccurred
        = (s._bStateChangeOccurred
            || decide ((stateControl now s).iOutputStateRequested
                ≠ (stateControl now s).iOutputStateActual))
      ∧ (ToggleState now s)._bStateChangeOccurred = s._bStateChangeOccurred
      ∧ (turnOff s)._bStateChangeOccurred = s._bStateChangeOccurred
      ∧ (resetGrainRest now s)._bStateChangeOccurred = s._bStateChangeOccurred
      ∧ (updatePumpTemperature q s)._bStateChangeOccurred = s._bStateChangeOccurred := by
  refine ⟨process_flag now s, ?_, ?_, rfl, rfl⟩
  · unfold ToggleState resetGrainRest
    split_ifs <;> rfl
  · unfold turnOff
    simp only [digitalRead, digitalWrite, delay, launchCallbackInitLCDs, waitForPhaseSync]
    split_ifs <;> rfl

/-- The actual output is left alone by the state-machine part of `process`
unless the grain rest block runs on a pump whose actual output is not OFF. -/
theorem stateControl_actual (now : Int) (s : Pump)
    (hG : maxPumpTemperatureExceeded s
      ∨ ¬ (s.iControlState = PUMP_CONTROL_GRAIN_REST
            ∧ s.iOperatingMode = PUMP_OPERATING_MODE_ON ∧ s.iGrainRestLength ≠ 0)
      ∨ s.iOutputStateActual = PUMP_OUTPUT_STATE_OFF) :
    (stateControl now s).iOutputStateActual = s.iOutputStateActual := by
  have h1 : ∀ u : Pump, (ventInitialSetup now u).iOutputStateActual = u.iOutputStateActual
      ∧ (ventInitialSetup now u).iControlState = u.iControlState := by
    intro u; unfold ventInitialSetup; split_ifs <;> exact ⟨rfl, rfl⟩
  have h2 : ∀ u : Pump, (ventCycleEndCheck now u).iOutputStateActual = u.iOutputStateActual
      ∧ (ventCycleEndCheck now u).iControlState = u.iControlState := by
    intro u; unfold ventCycleEndCheck; split_ifs <;> exact ⟨rfl, rfl⟩
  have h3 : ∀ u : Pump, u.iControlState = PUMP_CONTROL_VENT →
      (ventPhaseEndCheck u).iOutputStateActual = u.iOutputStateActual
      ∧ (ventPhaseEndCheck u).iControlState ≠ PUMP_CONTROL_GRAIN_REST := by
    intro u hu; unfold ventPhaseEndCheck
    split_ifs
    · exact ⟨rfl, by show PUMP_CONTROL_STOP ≠ PUMP_CONTROL_GRAIN_REST; decide⟩
    · exact ⟨rfl, by show PUMP_CONTROL_ON ≠ PUMP_CONTROL_GRAIN_REST; decide⟩
    · exact ⟨rfl, by rw [hu]; decide⟩
    · exact ⟨rfl, by rw [hu]; decide⟩
  unfold stateControl
  by_cases hX : maxPumpTemperatureExceeded s
  · rw [if_pos hX]
  · rw [if_neg hX]
    by_cases hV : s.iControlState = PUMP_CONTROL_VENT
    · -- the ventilation block runs and leaves a control state other than GRAIN_REST
      have e1 := h1 s
      have e2 := h2 (ventInitialSetup now s)
      have e3 := h3 (ventCycleEndCheck now (ventInitialSetup now s)) (by rw [e2.2, e1.2, hV])
      have hv : ventilationControl now s
          = ventPhaseEndCheck (ventCycleEndCheck now (ventInitialSetup now s)) := by
        simp only [ventilationControl, hV, if_true]
      rw [hv]
      generalize ventPhaseEndCheck (ventCycleEndCheck now (ventInitialSetup now s)) = u at e3 ⊢
      have hg : grainRestControl now u = u := by simp [grainRestControl, e3.2]
      rw [hg, e3.1, e2.1, e1.1]
    · have hv : ventilationControl now s = s := by simp only [ventilationControl, hV, if_false]
      rw [hv]
      by_cases hB : s.iControlState = PUMP_CONTROL_GRAIN_REST
          ∧ s.iOperatingMode = PUMP_OPERATING_MODE_ON ∧ s.iGrainRestLength ≠ 0
      · have hA : s.iOutputStateActual = PUMP_OUTPUT_STATE_OFF := by
          rcases hG with h | h | h
          · exact absurd h hX
          · exact absurd hB h
          · exact h
        unfold grainRestControl
        dsimp only
        rw [if_pos hB]
        split_ifs <;> exact hA.symm
      · unfold grainRestControl
        dsimp only
        rw [if_neg hB]

/-- Number of calls of the handler in one `process` call, for a requested output
within OFF and ON and an actual output that the state-machine part leaves
alone: one if the actual output after the call differs from the one before, none
otherwise. -/
theorem process_callbackCount (now : Int) (s : Pump)
    (hR : s.iOutputStateRequested = PUMP_OUTPUT_STATE_OFF
      ∨ s.iOutputStateRequested = PUMP_OUTPUT_STATE_ON)
    (hA : (stateControl now s).iOutputStateActual = s.iOutputStateActual) :
    callbackCount (process now s).effects
      = callbackCount s.effects
        + if (process now s).iOutputStateActual ≠ s.iOutputStateActual then 1 else 0 := by
  have hR' := stateControl_requested now s hR
  rw [process_actual, process, ioControl_callbackCount, (stateControl_frame now s).2.2.1, hA]
  rcases hR' with h | h <;> rw [h] <;> simp [PUMP_OUTPUT_STATE_OFF, PUMP_OUTPUT_STATE_ON]

/-- C11, the failing input.  The running pump (actual output ON, pin at the ON
level 1) is put into a grain rest by its caller and polled at second 1.  The
grain rest block sets the requested and the actual output to OFF before the I/O
control; the I/O control then writes the OFF level 0 to the pin and, seeing no
mismatch, neither waits for the relay nor calls the handler: the only platform
call of the poll is the write.  The actual output has gone from ON to OFF and
the handler has not been called.  `turnOff` on the same running pump writes the
pin, waits the relay switching delay and calls the handler. -/
theorem process_callback_missed_in_grain_rest :
    grainRestFromRunningPump.iControlState = PUMP_CONTROL_GRAIN_REST
      ∧ grainRestFromRunningPump.iOutputStateRequested = PUMP_OUTPUT_STATE_ON
      ∧ grainRestFromRunningPump.iOutputStateActual = PUMP_OUTPUT_STATE_ON
      ∧ grainRestFromRunningPump.pinLevel = 1
      ∧ (process 1 grainRestFromRunningPump).iOutputStateActual = PUMP_OUTPUT_STATE_OFF
      ∧ (process 1 grainRestFromRunningPump).pinLevel = 0
      ∧ (process 1 grainRestFromRunningPump).effects
          = grainRestFromRunningPump.effects ++ [Effect.digitalWrite 0]
      ∧ callbackCount (process 1 grainRestFromRunningPump).effects
          = callbackCount grainRestFromRunningPump.effects
      ∧ (turnOff runningPump).effects
          = runningPump.effects
            ++ [Effect.digitalWrite 0, Effect.delay 200, Effect.callbackInitLCDs] := by
  decide

/-- Where the handler is called once per change of the actual output: for every
state whose requested output is OFF or ON and every time, provided the grain
rest block does not run in that call on a pump whose actual output is not OFF
(that is: the maximum temperature check trips, or the state is not GRAIN_REST
with operating mode ON and a grain rest length other than 0, or the actual
output is OFF), one `process` call calls the handler exactly once if the actual
output after the call differs from the actual output before it, and not at all
otherwise. -/
theorem process_callback_once (now : Int) (s : Pump)
    (hR : s.iOutputStateRequested = PUMP_OUTPUT_STATE_OFF
      ∨ s.iOutputStateRequested = PUMP_OUTPUT_STATE_ON)
    (hG : maxPumpTemperatureExceeded s
      ∨ ¬ (s.iControlState = PUMP_CONTROL_GRAIN_REST
            ∧ s.iOperatingMode = PUMP_OPERATING_MODE_ON ∧ s.iGrainRestLength ≠ 0)
      ∨ s.iOutputStateActual = PUMP_OUTPUT_STATE_OFF) :
    callbackCount (process now s).effects
      = callbackCount s.effects
        + if (process now s).iOutputStateActual ≠ s.iOutputStateActual then 1 else 0 :=
  process_callbackCount now s hR (stateControl_actual now s hG)

/-- From the pump with ventilation disabled, `ToggleState`, `process`,
`process`: the first poll takes the actual output from OFF to ON and calls the
handler once, the second leaves it ON and does not call it; one call in
total. -/
theorem process_callback_once_witness :
    (callbackCount (process 0 (ToggleState 0 directPump)).effects
        = callbackCount (ToggleState 0 directPump).effects
          + if (process 0 (ToggleState 0 directPump)).iOutputStateActual
                ≠ (ToggleState 0 directPump).iOutputStateActual then 1 else 0)
      ∧ (callbackCount (process 1 (process 0 (ToggleState 0 directPump))).effects
        = callbackCount (process 0 (ToggleState 0 directPump)).effects
          + if (process 1 (process 0 (ToggleState 0 directPump))).iOutputStateActual
                ≠ (process 0 (ToggleState 0 directPump)).iOutputStateActual then 1 else 0)
      ∧ callbackCount directPump.effects = 0
      ∧ callbackCount (process 1 (process 0 (ToggleState 0 directPump))).effects = 1 :=
  ⟨process_callback_once 0 (ToggleState 0 directPump) (Or.inr (by decide))
      (Or.inr (Or.inl (by decide))),
    process_callback_once 1 (process 0 (ToggleState 0 directPump)) (Or.inr (by decide))
      (Or.inr (Or.inl (by decide))),
    by decide, by decide⟩

/-- C19. The pin follows the request under either polarity: for every state
whose polarity pair (ON level, OFF level) is (1, 0) or (0, 1) and whose pin level
is 0 or 1, after `process` the pin is at the ON level if the requested output
is ON and at the OFF level otherwise; and `process` writes the pin once if its
level before the call differs from that target level, and not at all if it does
not. -/
theorem process_pin_follows_request (now : Int) (s : Pump)
    (hPol : (s.iPumpOnState = 1 ∧ s.iPumpOffState = 0)
      ∨ (s.iPumpOnState = 0 ∧ s.iPumpOffState = 1))
    (hPin : s.pinLevel = 0 ∨ s.pinLevel = 1) :
    (process now s).pinLevel
        = (if (process now s).iOutputStateRequested = PUMP_OUTPUT_STATE_ON
            then s.iPumpOnState else s.iPumpOffState)
      ∧ pinWriteCount (process now s).effects
        = pinWriteCount s.effects
          + (if s.pinLevel
                ≠ (if (process now s).iOutputStateRequested = PUMP_OUTPUT_STATE_ON
                    then s.iPumpOnState else s.iPumpOffState)
              then 1 else 0)
      ∧ (process now s).iPumpOnState = s.iPumpOnState
      ∧ (process now s).iPumpOffState = s.iPumpOffState := by
  obtain ⟨_, hp, he, hon, hoff⟩ := stateControl_frame now s
  have hOn : (process now s).iPumpOnState = s.iPumpOnState := by
    obtain ⟨f, p, e, h⟩ := ioControl_shape (stateControl now s)
    rw [process, h]; exact hon
  have hOff : (process now s).iPumpOffState = s.iPumpOffState := by
    obtain ⟨f, p, e, h⟩ := ioControl_shape (stateControl now s)
    rw [process, h]; exact hoff
  refine ⟨?_, ?_, hOn, hOff⟩
  · rw [process_requested, process, ioControl_pinLevel, hp, hon, hoff]
    rcases hPol with ⟨h1, h0⟩ | ⟨h1, h0⟩ <;> rcases hPin with h | h <;>
      rw [h1, h0, h] <;> split_ifs <;> simp_all
  · rw [process_requested, process, ioControl_pinWriteCount, hp, he, hon, hoff]
    rcases hPol with ⟨h1, h0⟩ | ⟨h1, h0⟩ <;> rcases hPin with h | h <;>
      rw [h1, h0, h] <;> split_ifs <;> simp_all

/-- Witness of C19: the venting pump (positive polarity, pin at 1) polled at
second 5, when the first ON sub-interval ends and the request becomes OFF. -/
theorem process_pin_follows_request_witness :
    ventingPump.pinLevel = 1
      ∧ (process 5 ventingPump).iOutputStateRequested = PUMP_OUTPUT_STATE_OFF
      ∧ (process 5 ventingPump).pinLevel
        = (if (process 5 ventingPump).iOutputStateRequested = PUMP_OUTPUT_STATE_ON
            then ventingPump.iPumpOnState else ventingPump.iPumpOffState)
      ∧ pinWriteCount (process 5 ventingPump).effects
        = pinWriteCount ventingPump.effects
          + (if ventingPump.pinLevel
                ≠ (if (process 5 ventingPump).iOutputStateRequested = PUMP_OUTPUT_STATE_ON
                    then ventingPump.iPumpOnState else ventingPump.iPumpOffState)
              then 1 else 0)
      ∧ (process 5 ventingPump).iPumpOnState = ventingPump.iPumpOnState
      ∧ (process 5 ventingPump).iPumpOffState = ventingPump.iPumpOffState :=
  ⟨by decide, by decide,
    process_pin_follows_request 5 ventingPump (Or.inl ⟨by decide, by decide⟩)
      (Or.inr (by decide))⟩

/-- The state-machine part of `process` does nothing when the maximum temperature
check does not trip, the control state is not VENT and the guard of the grain
rest block is false. -/
theorem stateControl_idle (now : Int) (s : Pump)
    (hT : ¬ maxPumpTemperatureExceeded s)
    (hV : s.iControlState ≠ PUMP_CONTROL_VENT)
    (hB : ¬ (s.iControlState = PUMP_CONTROL_GRAIN_REST
            ∧ s.iOperatingMode = PUMP_OPERATING_MODE_ON ∧ s.iGrainRestLength ≠ 0)) :
    stateControl now s = s := by
  have hv : ventilationControl now s = s := by simp only [ventilationControl, hV, if_false]
  unfold stateControl
  rw [if_neg hT, hv]
  unfold grainRestControl
  dsimp only
  rw [if_neg hB]

/-- C15, as stated, fails: the running pump has ventilation disabled and is put
into a grain rest (length 1 minute) by its caller; the poll at second 1 forces
the requested and the actual output from ON to OFF, and the poll at second 60
leaves GRAIN_REST for VENT, a re-ventilation. -/
theorem grain_rest_disabled_counterexample :
    grainRestFromRunningPump.bEnablePumpVentilation = false
      ∧ grainRestFromRunningPump.iControlState = PUMP_CONTROL_GRAIN_REST
      ∧ ¬ maxPumpTemperatureExceeded grainRestFromRunningPump
      ∧ grainRestFromRunningPump.iOutputStateRequested = PUMP_OUTPUT_STATE_ON
      ∧ (process 1 grainRestFromRunningPump).iOutputStateRequested = PUMP_OUTPUT_STATE_OFF
      ∧ (process 1 grainRestFromRunningPump).iOutputStateActual = PUMP_OUTPUT_STATE_OFF
      ∧ (process 60 grainRestFromRunningPump).iControlState = PUMP_CONTROL_VENT := by
  decide

/-- C15, amended. Grain rest is a no-op when the rest length is 0: for every
state with control state GRAIN_REST, the maximum temperature check not tripping
and a grain rest length of 0, whatever the ventilation setting, `process`
leaves the control state, the requested output and the ventilation cycle
counter as they were, and sets the actual output to the one reconciled from the
unchanged request. -/
theorem grain_rest_zero_length_noop (now : Int) (s : Pump)
    (hC : s.iControlState = PUMP_CONTROL_GRAIN_REST)
    (hT : ¬ maxPumpTemperatureExceeded s)
    (hL : s.iGrainRestLength = 0) :
    (process now s).iControlState = PUMP_CONTROL_GRAIN_REST
      ∧ (process now s).iOutputStateRequested = s.iOutputStateRequested
      ∧ (process now s).iOutputStateActual
          = (if s.iOutputStateRequested = PUMP_OUTPUT_STATE_ON then PUMP_OUTPUT_STATE_ON
              else PUMP_OUTPUT_STATE_OFF)
      ∧ (process now s).iVentilationCycleRuntimeCount = s.iVentilationCycleRuntimeCount := by
  have hV : s.iControlState ≠ PUMP_CONTROL_VENT := by rw [hC]; decide
  have hB : ¬ (s.iControlState = PUMP_CONTROL_GRAIN_REST
      ∧ s.iOperatingMode = PUMP_OPERATING_MODE_ON ∧ s.iGrainRestLength ≠ 0) :=
    fun h => h.2.2 hL
  have hI := stateControl_idle now s hT hV hB
  obtain ⟨f, p, e, h⟩ := ioControl_shape s
  rw [process, hI, h]
  exact ⟨hC, rfl, rfl, rfl⟩

/-- Witness of C15, amended: the running pump in a grain rest, with the grain
rest length set to 0, polled at second 60. -/
theorem grain_rest_zero_length_noop_witness :
    (process 60 { grainRestFromRunningPump with iGrainRestLength := 0 }).iControlState
        = PUMP_CONTROL_GRAIN_REST
      ∧ (process 60 { grainRestFromRunningPump with iGrainRestLength := 0 }).iOutputStateRequested
        = PUMP_OUTPUT_STATE_ON
      ∧ (process 60 { grainRestFromRunningPump with iGrainRestLength := 0 }).iOutputStateActual
        = PUMP_OUTPUT_STATE_ON
      ∧ (process 60
          { grainRestFromRunningPump with iGrainRestLength := 0 }).iVentilationCycleRuntimeCount
        = grainRestFromRunningPump.iVentilationCycleRuntimeCount :=
  grain_rest_zero_length_noop 60 { grainRestFromRunningPump with iGrainRestLength := 0 }
    (by decide) (by decide) (by decide)

/-- C17, as stated, fails, in three ways.  The requested and the actual output
differ at entry, and the flag is false after the poll: when the maximum
temperature check trips and rewrites the request; when the ventilation block
closes an ON sub-interval and rewrites the request; when the grain rest block
forces both outputs to OFF. -/
theorem mismatch_raises_flag_counterexample :
    (hotToggledPump.iOutputStateRequested ≠ hotToggledPump.iOutputStateActual
        ∧ (process 1 hotToggledPump)._bStateChangeOccurred = false)
      ∧ (ventingMismatchPump.iOutputStateRequested ≠ ventingMismatchPump.iOutputStateActual
        ∧ ventingMismatchPump._bStateChangeOccurred = false
        ∧ (process 5 ventingMismatchPump)._bStateChangeOccurred = false)
      ∧ (grainRestFromToggledPump.iOutputStateRequested
          ≠ grainRestFromToggledPump.iOutputStateActual
        ∧ (process 1 grainRestFromToggledPump)._bStateChangeOccurred = false) := by
  decide

/-- C17, amended. A mismatch at poll entry raises the flag when the state-machine
part of the poll stands still: for every state and time in which the maximum
temperature check does not trip, the control state is not VENT and the grain
rest block does not run (the state is not GRAIN_REST with operating mode ON and
a grain rest length other than 0), if the requested output differs from the
actual output at entry to `process`, then the flag is true after that call. -/
theorem mismatch_raises_flag (now : Int) (s : Pump)
    (hT : ¬ maxPumpTemperatureExceeded s)
    (hV : s.iControlState ≠ PUMP_CONTROL_VENT)
    (hB : ¬ (s.iControlState = PUMP_CONTROL_GRAIN_REST
            ∧ s.iOperatingMode = PUMP_OPERATING_MODE_ON ∧ s.iGrainRestLength ≠ 0))
    (hM : s.iOutputStateRequested ≠ s.iOutputStateActual) :
    (process now s)._bStateChangeOccurred = true := by
  rw [process_flag, stateControl_idle now s hT hV hB]
  simp [hM]

/-- Witness of C17, amended: the pump with ventilation disabled, toggled on at
second 0 (requested output ON, actual output OFF) and polled at second 0. -/
theorem mismatch_raises_flag_witness :
    (ToggleState 0 directPump)._bStateChangeOccurred = false
      ∧ (process 0 (ToggleState 0 directPump))._bStateChangeOccurred = true :=
  ⟨by decide,
    mismatch_raises_flag 0 (ToggleState 0 directPump) (by decide) (by decide) (by decide)
      (by decide)⟩

/-- C20. Ventilation sub-interval step: for every state with control state VENT,
the maximum temperature check not tripping and a sub-interval in progress (not
both the cycle counter 0 and the requested output OFF).  When `now` is at or
past the end of the sub-interval: with the requested output ON and the counter
plus one within the configured cycles, `process` yields the counter plus one,
the end `now + iPumpVentilationOffLength`, the requested output OFF and the
control state VENT; with the requested output OFF and the counter within the
configured cycles, it yields the same counter, the end
`now + iPumpVentilationOnLength`, the requested output ON and the control state
VENT.  When `now` is before the end and the counter is within the configured
cycles, the counter, the start and the end of the sub-interval, the requested
output and the control state are as before. -/
theorem ventilation_sub_interval_step (now : Int) (s : Pump)
    (hC : s.iControlState = PUMP_CONTROL_VENT)
    (hT : ¬ maxPumpTemperatureExceeded s)
    (hP : ¬ (s.iVentilationCycleRuntimeCount = 0
            ∧ s.iOutputStateRequested = PUMP_OUTPUT_STATE_OFF)) :
    (now ≥ s.dtVentEndTime → s.iOutputStateRequested = PUMP_OUTPUT_STATE_ON →
        s.iVentilationCycleRuntimeCount + 1 ≤ s.iPumpVentilationCycles →
        (process now s).iVentilationCycleRuntimeCount = s.iVentilationCycleRuntimeCount + 1
          ∧ (process now s).dtVentEndTime = now + s.iPumpVentilationOffLength
          ∧ (process now s).iOutputStateRequested = PUMP_OUTPUT_STATE_OFF
          ∧ (process now s).iControlState = PUMP_CONTROL_VENT)
      ∧ (now ≥ s.dtVentEndTime → s.iOutputStateRequested = PUMP_OUTPUT_STATE_OFF →
        s.iVentilationCycleRuntimeCount ≤ s.iPumpVentilationCycles →
        (process now s).iVentilationCycleRuntimeCount = s.iVentilationCycleRuntimeCount
          ∧ (process now s).dtVentEndTime = now + s.iPumpVentilationOnLength
          ∧ (process now s).iOutputStateRequested = PUMP_OUTPUT_STATE_ON
          ∧ (process now s).iControlState = PUMP_CONTROL_VENT)
      ∧ (now < s.dtVentEndTime →
        s.iVentilationCycleRuntimeCount ≤ s.iPumpVentilationCycles →
        (process now s).iVentilationCycleRuntimeCount = s.iVentilationCycleRuntimeCount
          ∧ (process now s).dtVentStartTime = s.dtVentStartTime
          ∧ (process now s).dtVentEndTime = s.dtVentEndTime
          ∧ (process now s).iOutputStateRequested = s.iOutputStateRequested
          ∧ (process now s).iControlState = PUMP_CONTROL_VENT) := by
  obtain ⟨f, p, e, hp⟩ := process_of_vent now s hC hT
  have h1 : ventInitialSetup now s = s := by
    simp only [ventInitialSetup, hP, if_false]
  rw [hp, h1]
  refine ⟨fun hE hR hK => ?_, fun hE hR hK => ?_, fun hE hK => ?_⟩
  · have h3 : ¬ (s.iVentilationCycleRuntimeCount + 1 > s.iPumpVentilationCycles) := by omega
    have hX : ventPhaseEndCheck (ventCycleEndCheck now s) = { s with
        iVentilationCycleRuntimeCount := s.iVentilationCycleRuntimeCount + 1
        iOutputStateRequested := PUMP_OUTPUT_STATE_OFF
        dtVentStartTime := now
        dtVentEndTime := now + s.iPumpVentilationOffLength } := by
      simp only [ventCycleEndCheck, hE, if_true, hR, ventPhaseEndCheck, h3, if_false]
    rw [hX]
    exact ⟨rfl, rfl, rfl, hC⟩
  · have h0 : PUMP_OUTPUT_STATE_OFF ≠ PUMP_OUTPUT_STATE_ON := by decide
    have h3 : ¬ (s.iVentilationCycleRuntimeCount > s.iPumpVentilationCycles) := by omega
    have hX : ventPhaseEndCheck (ventCycleEndCheck now s) = { s with
        iOutputStateRequested := PUMP_OUTPUT_STATE_ON
        dtVentStartTime := now
        dtVentEndTime := now + s.iPumpVentilationOnLength } := by
      simp only [ventCycleEndCheck, hE, if_true, hR, h0, if_false, ventPhaseEndCheck, h3]
    rw [hX]
    exact ⟨rfl, rfl, rfl, hC⟩
  · have h2 : ¬ (now ≥ s.dtVentEndTime) := by omega
    have h3 : ¬ (s.iVentilationCycleRuntimeCount > s.iPumpVentilationCycles) := by omega
    have hX : ventPhaseEndCheck (ventCycleEndCheck now s) = s := by
      simp only [ventCycleEndCheck, h2, if_false, ventPhaseEndCheck, h3]
    rw [hX]
    exact ⟨rfl, rfl, rfl, rfl, hC⟩

/-- Witness of C20: the venting pump (ON sub-interval ending at second 5, counter
0 of 3) polled at second 5 and at second 3, and the same pump in the OFF
sub-interval that follows (ending at second 7, counter 1) polled at second 7. -/
theorem ventilation_sub_interval_step_witness :
    ((process 5 ventingPump).iVentilationCycleRuntimeCount
          = ventingPump.iVentilationCycleRuntimeCount + 1
        ∧ (process 5 ventingPump).dtVentEndTime = 5 + ventingPump.iPumpVentilationOffLength
        ∧ (process 5 ventingPump).iOutputStateRequested = PUMP_OUTPUT_STATE_OFF
        ∧ (process 5 ventingPump).iControlState = PUMP_CONTROL_VENT)
      ∧ ((process 7 ventingOffPump).iVentilationCycleRuntimeCount
          = ventingOffPump.iVentilationCycleRuntimeCount
        ∧ (process 7 ventingOffPump).dtVentEndTime = 7 + ventingOffPump.iPumpVentilationOnLength
        ∧ (process 7 ventingOffPump).iOutputStateRequested = PUMP_OUTPUT_STATE_ON
        ∧ (process 7 ventingOffPump).iControlState = PUMP_CONTROL_VENT)
      ∧ ((process 3 ventingPump).iVentilationCycleRuntimeCount
          = ventingPump.iVentilationCycleRuntimeCount
        ∧ (process 3 ventingPump).dtVentStartTime = ventingPump.dtVentStartTime
        ∧ (process 3 ventingPump).dtVentEndTime = ventingPump.dtVentEndTime
        ∧ (process 3 ventingPump).iOutputStateRequested = ventingPump.iOutputStateRequested
        ∧ (process 3 ventingPump).iControlState = PUMP_CONTROL_VENT) :=
  ⟨(ventilation_sub_interval_step 5 ventingPump (by decide) (by decide) (by decide)).1
      (by decide) (by decide) (by decide),
    (ventilation_sub_interval_step 7 ventingOffPump (by decide) (by decide) (by decide)).2.1
      (by decide) (by decide) (by decide),
    (ventilation_sub_interval_step 3 ventingPump (by decide) (by decide) (by decide)).2.2
      (by decide) (by decide)⟩

/-! ### The advisory flags -/

/-- The maximum temperature check does not read the advisory flags. -/
theorem maxPumpTemperatureExceeded_erase (s : Pump) :
    maxPumpTemperatureExceeded (eraseAdvisoryFlags s) ↔ maxPumpTemperatureExceeded s :=
  Iff.rfl

/-- `ToggleState` commutes with clearing the advisory flags. -/
theorem ToggleState_erase (now : Int) (s : Pump) :
    ToggleState now (eraseAdvisoryFlags s) = eraseAdvisoryFlags (ToggleState now s) := by
  unfold ToggleState
  by_cases h1 : s.iControlState = PUMP_CONTROL_STOP
  · have h1' : (eraseAdvisoryFlags s).iControlState = PUMP_CONTROL_STOP := h1
    rw [if_pos h1, if_pos h1']
    by_cases h2 : maxPumpTemperatureExceeded s
    · have h2' : maxPumpTemperatureExceeded (eraseAdvisoryFlags s) := h2
      rw [if_pos h2, if_pos h2']
    · have h2' : ¬ maxPumpTemperatureExceeded (eraseAdvisoryFlags s) := h2
      rw [if_neg h2, if_neg h2']
      by_cases h3 : s.bEnablePumpVentilation = true
      · have h3' : (eraseAdvisoryFlags s).bEnablePumpVentilation = true := h3
        simp only [h3, h3', if_true]
        rfl
      · have h3' : ¬ (eraseAdvisoryFlags s).bEnablePumpVentilation = true := h3
        simp only [h3, h3', if_false]
        rfl
  · have h1' : ¬ (eraseAdvisoryFlags s).iControlState = PUMP_CONTROL_STOP := h1
    rw [if_neg h1, if_neg h1']
    rfl

/-- `turnOff` commutes with clearing the advisory flags. -/
theorem turnOff_erase (s : Pump) :
    turnOff (eraseAdvisoryFlags s) = eraseAdvisoryFlags (turnOff s) := by
  unfold turnOff eraseAdvisoryFlags
  simp only [digitalRead, digitalWrite, delay, launchCallbackInitLCDs, waitForPhaseSync]
  split_ifs <;> rfl

/-- The I/O control step commutes with clearing the advisory flags. -/
theorem ioControl_erase (s : Pump) :
    ioControl (eraseAdvisoryFlags s) = eraseAdvisoryFlags (ioControl s) := by
  unfold ioControl eraseAdvisoryFlags
  simp only [digitalRead, digitalWrite, delay, launchCallbackInitLCDs, waitForPhaseSync]
  split_ifs <;> rfl

/-- The state-machine part of `process` commutes with clearing the advisory
flags. -/
theorem stateControl_erase (now : Int) (s : Pump) :
    stateControl now (eraseAdvisoryFlags s) = eraseAdvisoryFlags (stateControl now s) := by
  have h1 : ∀ u : Pump, ventInitialSetup now (eraseAdvisoryFlags u)
      = eraseAdvisoryFlags (ventInitialSetup now u) := by
    intro u; unfold ventInitialSetup eraseAdvisoryFlags; dsimp only; split_ifs <;> rfl
  have h2 : ∀ u : Pump, ventCycleEndCheck now (eraseAdvisoryFlags u)
      = eraseAdvisoryFlags (ventCycleEndCheck now u) := by
    intro u; unfold ventCycleEndCheck eraseAdvisoryFlags; dsimp only; split_ifs <;> rfl
  have h3 : ∀ u : Pump, ventPhaseEndCheck (eraseAdvisoryFlags u)
      = eraseAdvisoryFlags (ventPhaseEndCheck u) := by
    intro u; unfold ventPhaseEndCheck eraseAdvisoryFlags; dsimp only; split_ifs <;> rfl
  have h4 : ∀ u : Pump, ventilationControl now (eraseAdvisoryFlags u)
      = eraseAdvisoryFlags (ventilationControl now u) := by
    intro u
    unfold ventilationControl
    by_cases h : u.iControlState = PUMP_CONTROL_VENT
    · have h' : (eraseAdvisoryFlags u).iControlState = PUMP_CONTROL_VENT := h
      rw [if_pos h, if_pos h', h1, h2, h3]
    · have h' : ¬ (eraseAdvisoryFlags u).iControlState = PUMP_CONTROL_VENT := h
      rw [if_neg h, if_neg h']
  have h5 : ∀ u : Pump, grainRestControl now (eraseAdvisoryFlags u)
      = eraseAdvisoryFlags (grainRestControl now u) := by
    intro u; unfold grainRestControl eraseAdvisoryFlags; dsimp only; split_ifs <;> rfl
  unfold stateControl
  by_cases h : maxPumpTemperatureExceeded s
  · have h' : maxPumpTemperatureExceeded (eraseAdvisoryFlags s) := h
    rw [if_pos h, if_pos h']
    rfl
  · have h' : ¬ maxPumpTemperatureExceeded (eraseAdvisoryFlags s) := h
    rw [if_neg h, if_neg h', h4, h5]

/-- `process` commutes with clearing the advisory flags. -/
theorem process_erase (now : Int) (s : Pump) :
    process now (eraseAdvisoryFlags s) = eraseAdvisoryFlags (process now s) := by
  rw [process, process, stateControl_erase, ioControl_erase]

/-- C16. The advisory flags do not influence control: for any two states that
differ in `bCurrentlyControllingMashing` and in
`bTempFlagForInhibitGrainRestAsAroundPreheatSetPoint` at most, each of
`ToggleState`, `process`, `turnOff` and `resetGrainRest`, called at the same
time on both, produces states that again differ in these two flags at most; and
each of `beginMashingControl`, `endMashingControl`,
`temporaryInhibitGrainRestAsAroundPreheatSetPoint` and
`temporaryPermitGrainRestAsAroundPreheatSetPoint` writes its own flag and
nothing else. -/
theorem advisory_flags_do_not_influence_control (now : Int) (s₁ s₂ : Pump)
    (h : eraseAdvisoryFlags s₁ = eraseAdvisoryFlags s₂) :
    eraseAdvisoryFlags (ToggleState now s₁) = eraseAdvisoryFlags (ToggleState now s₂)
      ∧ eraseAdvisoryFlags (process now s₁) = eraseAdvisoryFlags (process now s₂)
      ∧ eraseAdvisoryFlags (turnOff s₁) = eraseAdvisoryFlags (turnOff s₂)
      ∧ eraseAdvisoryFlags (resetGrainRest now s₁) = eraseAdvisoryFlags (resetGrainRest now s₂)
      ∧ beginMashingControl s₁ = { s₁ with bCurrentlyControllingMashing := true }
      ∧ endMashingControl s₁ = { s₁ with bCurrentlyControllingMashing := false }
      ∧ temporaryInhibitGrainRestAsAroundPreheatSetPoint s₁
          = { s₁ with bTempFlagForInhibitGrainRestAsAroundPreheatSetPoint := true }
      ∧ temporaryPermitGrainRestAsAroundPreheatSetPoint s₁
          = { s₁ with bTempFlagForInhibitGrainRestAsAroundPreheatSetPoint := false } := by
  refine ⟨?_, ?_, ?_, ?_, rfl, rfl, rfl, rfl⟩
  · rw [← ToggleState_erase, ← ToggleState_erase, h]
  · rw [← process_erase, ← process_erase, h]
  · rw [← turnOff_erase, ← turnOff_erase, h]
  · have e : ∀ u : Pump, eraseAdvisoryFlags (resetGrainRest now u)
        = resetGrainRest now (eraseAdvisoryFlags u) := fun _ => rfl
    rw [e, e, h]

/-- Witness of C16: the venting pump, and the same pump after
`beginMashingControl` and `temporaryPermitGrainRestAsAroundPreheatSetPoint`,
which changes both flags; polled, toggled, turned off and reset at second 5. -/
theorem advisory_flags_do_not_influence_control_witness :
    ventingPump ≠ temporaryPermitGrainRestAsAroundPreheatSetPoint (beginMashingControl ventingPump)
      ∧ eraseAdvisoryFlags (ToggleState 5 ventingPump)
        = eraseAdvisoryFlags (ToggleState 5
            (temporaryPermitGrainRestAsAroundPreheatSetPoint (beginMashingControl ventingPump)))
      ∧ eraseAdvisoryFlags (process 5 ventingPump)
        = eraseAdvisoryFlags (process 5
            (temporaryPermitGrainRestAsAroundPreheatSetPoint (beginMashingControl ventingPump)))
      ∧ eraseAdvisoryFlags (turnOff ventingPump)
        = eraseAdvisoryFlags (turnOff
            (temporaryPermitGrainRestAsAroundPreheatSetPoint (beginMashingControl ventingPump)))
      ∧ eraseAdvisoryFlags (resetGrainRest 5 ventingPump)
        = eraseAdvisoryFlags (resetGrainRest 5
            (temporaryPermitGrainRestAsAroundPreheatSetPoint (beginMashingControl ventingPump)))
      ∧ beginMashingControl ventingPump
          = { ventingPump with bCurrentlyControllingMashing := true }
      ∧ endMashingControl ventingPump
          = { ventingPump with bCurrentlyControllingMashing := false }
      ∧ temporaryInhibitGrainRestAsAroundPreheatSetPoint ventingPump
          = { ventingPump with bTempFlagForInhibitGrainRestAsAroundPreheatSetPoint := true }
      ∧ temporaryPermitGrainRestAsAroundPreheatSetPoint ventingPump
          = { ventingPump with bTempFlagForInhibitGrainRestAsAroundPreheatSetPoint := false } :=
  ⟨by decide,
    advisory_flags_do_not_influence_control 5 ventingPump
      (temporaryPermitGrainRestAsAroundPreheatSetPoint (beginMashingControl ventingPump)) rfl⟩


/-! ### Control states the controller can produce -/

/-- The ventilation block leaves a control state other than GRAIN_REST when it
runs, that is, when it is entered with the control state VENT. -/
theorem ventilationControl_not_grain_rest (now : Int) (s : Pump)
    (h : s.iControlState ≠ PUMP_CONTROL_GRAIN_REST) :
    (ventilationControl now s).iControlState ≠ PUMP_CONTROL_GRAIN_REST := by
  have h1 : (ventInitialSetup now s).iControlState = s.iControlState := by
    unfold ventInitialSetup; split_ifs <;> rfl
  have h2 : (ventCycleEndCheck now (ventInitialSetup now s)).iControlState = s.iControlState := by
    rw [← h1]
    generalize ventInitialSetup now s = u
    unfold ventCycleEndCheck; split_ifs <;> rfl
  unfold ventilationControl
  split_ifs
  · rw [← h2] at h
    generalize ventCycleEndCheck now (ventInitialSetup now s) = u at h ⊢
    unfold ventPhaseEndCheck
    split_ifs
    · show PUMP_CONTROL_STOP ≠ PUMP_CONTROL_GRAIN_REST; decide
    · show PUMP_CONTROL_ON ≠ PUMP_CONTROL_GRAIN_REST; decide
    · exact h
    · exact h
  · exact h

/-- The grain rest block does nothing on a control state other than
GRAIN_REST. -/
theorem grainRestControl_of_not_grain_rest (now : Int) (s : Pump)
    (h : s.iControlState ≠ PUMP_CONTROL_GRAIN_REST) :
    grainRestControl now s = s := by
  simp [grainRestControl, h]

/-- `process` does not enter GRAIN_REST. -/
theorem process_not_grain_rest (now : Int) (s : Pump)
    (h : s.iControlState ≠ PUMP_CONTROL_GRAIN_REST) :
    (process now s).iControlState ≠ PUMP_CONTROL_GRAIN_REST := by
  obtain ⟨f, p, e, hio⟩ := ioControl_shape (stateControl now s)
  rw [process, hio]
  show (stateControl now s).iControlState ≠ PUMP_CONTROL_GRAIN_REST
  unfold stateControl
  split_ifs
  · show PUMP_CONTROL_STOP ≠ PUMP_CONTROL_GRAIN_REST; decide
  · have hv := ventilationControl_not_grain_rest now s h
    rw [grainRestControl_of_not_grain_rest now _ hv]
    exact hv

/-- `ToggleState` does not enter GRAIN_REST. -/
theorem ToggleState_not_grain_rest (now : Int) (s : Pump)
    (h : s.iControlState ≠ PUMP_CONTROL_GRAIN_REST) :
    (ToggleState now s).iControlState ≠ PUMP_CONTROL_GRAIN_REST := by
  unfold ToggleState resetGrainRest
  split_ifs
  · exact h
  · show PUMP_CONTROL_VENT ≠ PUMP_CONTROL_GRAIN_REST; decide
  · show PUMP_CONTROL_ON ≠ PUMP_CONTROL_GRAIN_REST; decide
  · show PUMP_CONTROL_STOP ≠ PUMP_CONTROL_GRAIN_REST; decide

/-- The control state after `turnOff` is STOPPED. -/
theorem turnOff_control (s : Pump) : (turnOff s).iControlState = PUMP_CONTROL_STOP := by
  unfold turnOff
  simp only [digitalRead, digitalWrite, delay, launchCallbackInitLCDs, waitForPhaseSync]
  split_ifs <;> rfl

/-- No call of a public method enters GRAIN_REST. -/
theorem Call.run_not_grain_rest (c : Call) (s : Pump)
    (h : s.iControlState ≠ PUMP_CONTROL_GRAIN_REST) :
    (c.run s).iControlState ≠ PUMP_CONTROL_GRAIN_REST := by
  cases c with
  | ToggleState now => exact ToggleState_not_grain_rest now s h
  | process now => exact process_not_grain_rest now s h
  | turnOff =>
    show (AcksenPump.turnOff s).iControlState ≠ PUMP_CONTROL_GRAIN_REST
    rw [turnOff_control]; decide
  | stateChangeOccurred =>
    show (AcksenPump.stateChangeOccurred s).2.iControlState ≠ PUMP_CONTROL_GRAIN_REST
    unfold AcksenPump.stateChangeOccurred
    split_ifs <;> exact h
  | _ => exact h

/-- The control state of a freshly constructed pump is STOPPED. -/
theorem construct_control (raw : Pump) (p q : Int) :
    (construct raw p q).iControlState = PUMP_CONTROL_STOP := rfl

/-- No sequence of calls enters GRAIN_REST. -/
theorem runCalls_not_grain_rest (calls : List Call) (s : Pump)
    (h : s.iControlState ≠ PUMP_CONTROL_GRAIN_REST) :
    (runCalls s calls).iControlState ≠ PUMP_CONTROL_GRAIN_REST := by
  induction calls generalizing s with
  | nil => exact h
  | cons c cs ih => exact ih (c.run s) (Call.run_not_grain_rest c s h)

/-- C21. GRAIN_REST is never entered by the controller.  From a state whose
control state is not GRAIN_REST, none of `process`, `ToggleState`, `turnOff`,
`resetGrainRest`, `updatePumpTemperature`, the four flag setters,
`stateChangeOccurred` and `switchPumpNegativeLogic` yields the control state
GRAIN_REST, at any time and with any argument; hence no reachable state is in
GRAIN_REST, a poll of a VENT state does not yield GRAIN_REST, and within one
`process` call the grain rest block does not run after the ventilation block
has run. -/
theorem grain_rest_never_entered (s : Pump)
    (h : s.iControlState ≠ PUMP_CONTROL_GRAIN_REST) :
    (∀ c : Call, (c.run s).iControlState ≠ PUMP_CONTROL_GRAIN_REST)
      ∧ (∀ calls : List Call, (runCalls s calls).iControlState ≠ PUMP_CONTROL_GRAIN_REST)
      ∧ (∀ u : Pump, Reachable u → u.iControlState ≠ PUMP_CONTROL_GRAIN_REST)
      ∧ (∀ now : Int, s.iControlState = PUMP_CONTROL_VENT →
          (process now s).iControlState ≠ PUMP_CONTROL_GRAIN_REST
            ∧ ¬ ((ventilationControl now s).iControlState = PUMP_CONTROL_GRAIN_REST
                  ∧ (ventilationControl now s).iOperatingMode = PUMP_OPERATING_MODE_ON
                  ∧ (ventilationControl now s).iGrainRestLength ≠ 0)
            ∧ grainRestControl now (ventilationControl now s) = ventilationControl now s) := by
  refine ⟨fun c => Call.run_not_grain_rest c s h, fun calls => runCalls_not_grain_rest calls s h,
    ?_, fun now _ => ?_⟩
  · rintro u ⟨raw, p, q, calls, rfl⟩
    exact runCalls_not_grain_rest calls _ (by rw [construct_control]; decide)
  · have hv := ventilationControl_not_grain_rest now s h
    exact ⟨process_not_grain_rest now s h, fun hg => hv hg.1,
      grainRestControl_of_not_grain_rest now _ hv⟩

/-- Witness of C21: the venting pump, which is reachable and in VENT, polled at
second 5 and run through a toggle and two polls. -/
theorem grain_rest_never_entered_witness :
    Reachable ventingPump
      ∧ ventingPump.iControlState = PUMP_CONTROL_VENT
      ∧ (Call.process 5).run ventingPump = process 5 ventingPump
      ∧ (process 5 ventingPump).iControlState ≠ PUMP_CONTROL_GRAIN_REST
      ∧ (runCalls ventingPump
          [Call.ToggleState 6, Call.process 7, Call.ToggleState 8,
            Call.process 9]).iControlState ≠ PUMP_CONTROL_GRAIN_REST
      ∧ grainRestControl 5 (ventilationControl 5 ventingPump)
          = ventilationControl 5 ventingPump :=
  ⟨⟨zeroStorage, 5, -1, [Call.ToggleState 0, Call.process 0], rfl⟩, by decide, rfl,
    ((grain_rest_never_entered ventingPump (by decide)).2.2.2 5 (by decide)).1,
    (grain_rest_never_entered ventingPump (by decide)).2.1 _,
    ((grain_rest_never_entered ventingPump (by decide)).2.2.2 5 (by decide)).2.2⟩

/-! ### Consistency of the reachable states -/

/-- Consistency reads the control state, the requested output and the operating
mode only. -/
theorem Consistent.of_eq {s u : Pump} (h : Consistent s)
    (hc : u.iControlState = s.iControlState)
    (hr : u.iOutputStateRequested = s.iOutputStateRequested)
    (hm : u.iOperatingMode = s.iOperatingMode) : Consistent u := by
  unfold Consistent at h ⊢
  rw [hc, hr, hm]
  exact h

/-- The state-machine part of `process` keeps a consistent state consistent. -/
theorem stateControl_consistent (now : Int) (s : Pump) (h : Consistent s) :
    Consistent (stateControl now s) := by
  by_cases hT : maxPumpTemperatureExceeded s
  · have e : stateControl now s = { s with
        iControlState := PUMP_CONTROL_STOP
        iOutputStateRequested := PUMP_OUTPUT_STATE_OFF } := by
      simp only [stateControl, hT, if_true]
    rw [e]
    obtain ⟨_, _, _, h3, _⟩ := h
    refine ⟨Or.inl rfl, fun _ => rfl, fun hc => ?_, fun _ => rfl, fun hc => ?_⟩
    · exact absurd hc (by show PUMP_CONTROL_STOP ≠ PUMP_CONTROL_ON; decide)
    · rcases hc with hc | hc
      · exact absurd hc (by show PUMP_CONTROL_STOP ≠ PUMP_CONTROL_VENT; decide)
      · exact absurd hc (by show PUMP_CONTROL_STOP ≠ PUMP_CONTROL_ON; decide)
  · by_cases hV : s.iControlState = PUMP_CONTROL_VENT
    · -- the ventilation block runs with the operating mode ON
      have hM : s.iOperatingMode = PUMP_OPERATING_MODE_ON := h.2.2.2.2 (Or.inl hV)
      have h1 : (ventInitialSetup now s).iControlState = PUMP_CONTROL_VENT
          ∧ (ventInitialSetup now s).iOperatingMode = PUMP_OPERATING_MODE_ON := by
        unfold ventInitialSetup; split_ifs <;> exact ⟨hV, hM⟩
      have h2 : (ventCycleEndCheck now (ventInitialSetup now s)).iControlState
            = PUMP_CONTROL_VENT
          ∧ (ventCycleEndCheck now (ventInitialSetup now s)).iOperatingMode
            = PUMP_OPERATING_MODE_ON := by
        generalize ventInitialSetup now s = u at h1 ⊢
        unfold ventCycleEndCheck; split_ifs <;> exact h1
      have h3 : Consistent (ventPhaseEndCheck (ventCycleEndCheck now (ventInitialSetup now s))) := by
        generalize ventCycleEndCheck now (ventInitialSetup now s) = u at h2 ⊢
        obtain ⟨hc, hm⟩ := h2
        have hne : PUMP_OPERATING_MODE_ON ≠ PUMP_OPERATING_MODE_OFF := by decide
        have hvs : PUMP_CONTROL_VENT ≠ PUMP_CONTROL_STOP := by decide
        have hvo : PUMP_CONTROL_VENT ≠ PUMP_CONTROL_ON := by decide
        have hos : PUMP_CONTROL_ON ≠ PUMP_CONTROL_STOP := by decide
        have hK : Consistent u := by
          refine ⟨Or.inr (Or.inl hc), fun x => ?_, fun x => ?_, fun x => ?_, fun _ => hm⟩
          · rw [hc] at x; exact absurd x hvs
          · rw [hc] at x; exact absurd x hvo
          · rw [hm] at x; exact absurd x hne
        by_cases a : u.iVentilationCycleRuntimeCount > u.iPumpVentilationCycles
        · have e : ventPhaseEndCheck u = { u with
              iControlState := PUMP_CONTROL_ON
              iOutputStateRequested := PUMP_OUTPUT_STATE_ON } := by
            simp only [ventPhaseEndCheck, a, if_true, hm, hne, if_false]
          rw [e]
          refine ⟨Or.inr (Or.inr rfl), fun x => absurd x hos, fun _ => rfl, fun x => ?_,
            fun _ => hm⟩
          exact absurd (hm.symm.trans x) hne
        · have e : ventPhaseEndCheck u = u := by
            simp only [ventPhaseEndCheck, a, if_false]
          rw [e]
          exact hK
      have e : stateControl now s
          = ventPhaseEndCheck (ventCycleEndCheck now (ventInitialSetup now s)) := by
        have hg : (ventPhaseEndCheck (ventCycleEndCheck now
            (ventInitialSetup now s))).iControlState ≠ PUMP_CONTROL_GRAIN_REST := by
          rcases h3.1 with x | x | x <;> rw [x] <;> decide
        simp only [stateControl, hT, if_false, ventilationControl, hV, if_true]
        exact grainRestControl_of_not_grain_rest now _ hg
      rw [e]
      exact h3
    · have hB : ¬ (s.iControlState = PUMP_CONTROL_GRAIN_REST
          ∧ s.iOperatingMode = PUMP_OPERATING_MODE_ON ∧ s.iGrainRestLength ≠ 0) := by
        rintro ⟨x, _⟩
        rcases h.1 with y | y | y <;> rw [y] at x <;> revert x <;> decide
      rw [stateControl_idle now s hT hV hB]
      exact h

/-- `process` keeps a consistent state consistent. -/
theorem process_consistent (now : Int) (s : Pump) (h : Consistent s) :
    Consistent (process now s) := by
  obtain ⟨f, p, e, hio⟩ := ioControl_shape (stateControl now s)
  exact (stateControl_consistent now s h).of_eq (by rw [process, hio]) (by rw [process, hio])
    (by rw [process, hio])

/-- After `ToggleState` the state is consistent, when it was before. -/
theorem ToggleState_consistent (now : Int) (s : Pump) (h : Consistent s) :
    Consistent (ToggleState now s) := by
  have hne : PUMP_OPERATING_MODE_ON ≠ PUMP_OPERATING_MODE_OFF := by decide
  have hvs : PUMP_CONTROL_VENT ≠ PUMP_CONTROL_STOP := by decide
  have hvo : PUMP_CONTROL_VENT ≠ PUMP_CONTROL_ON := by decide
  have hos : PUMP_CONTROL_ON ≠ PUMP_CONTROL_STOP := by decide
  have hso : PUMP_CONTROL_STOP ≠ PUMP_CONTROL_ON := by decide
  unfold ToggleState resetGrainRest
  split_ifs
  · exact h
  · exact ⟨Or.inr (Or.inl rfl), fun x => absurd x hvs, fun x => absurd x hvo,
      fun x => absurd x hne, fun _ => rfl⟩
  · exact ⟨Or.inr (Or.inr rfl), fun x => absurd x hos, fun _ => rfl,
      fun x => absurd x hne, fun _ => rfl⟩
  · exact ⟨Or.inl rfl, fun _ => rfl, fun x => absurd x hso, fun _ => rfl,
      fun x => x.elim (fun y => absurd y hvs.symm) (fun y => absurd y hso)⟩

/-- After `turnOff` the control state is STOPPED, the requested output OFF and
the operating mode OFF. -/
theorem turnOff_state (s : Pump) :
    (turnOff s).iControlState = PUMP_CONTROL_STOP
      ∧ (turnOff s).iOutputStateRequested = PUMP_OUTPUT_STATE_OFF
      ∧ (turnOff s).iOperatingMode = PUMP_OPERATING_MODE_OFF := by
  unfold turnOff
  simp only [digitalRead, digitalWrite, delay, launchCallbackInitLCDs, waitForPhaseSync]
  split_ifs <;> exact ⟨rfl, rfl, rfl⟩

/-- Every call of a public method keeps a consistent state consistent. -/
theorem Call.run_consistent (c : Call) (s : Pump) (h : Consistent s) :
    Consistent (c.run s) := by
  cases c with
  | ToggleState now => exact ToggleState_consistent now s h
  | process now => exact process_consistent now s h
  | turnOff =>
    obtain ⟨hc, hr, hm⟩ := turnOff_state s
    have hvs : PUMP_CONTROL_VENT ≠ PUMP_CONTROL_STOP := by decide
    have hso : PUMP_CONTROL_STOP ≠ PUMP_CONTROL_ON := by decide
    show Consistent (AcksenPump.turnOff s)
    unfold Consistent
    rw [hc, hr, hm]
    exact ⟨Or.inl rfl, fun _ => rfl, fun x => absurd x hso, fun _ => rfl,
      fun x => x.elim (fun y => absurd y hvs.symm) (fun y => absurd y hso)⟩
  | stateChangeOccurred =>
    show Consistent (AcksenPump.stateChangeOccurred s).2
    unfold AcksenPump.stateChangeOccurred
    split_ifs
    · exact h.of_eq rfl rfl rfl
    · exact h
  | _ => exact h.of_eq rfl rfl rfl

/-- A freshly constructed pump is consistent. -/
theorem construct_consistent (raw : Pump) (p q : Int) : Consistent (construct raw p q) := by
  have hvs : PUMP_CONTROL_VENT ≠ PUMP_CONTROL_STOP := by decide
  have hso : PUMP_CONTROL_STOP ≠ PUMP_CONTROL_ON := by decide
  exact ⟨Or.inl rfl, fun _ => rfl, fun x => absurd x hso, fun _ => rfl,
    fun x => x.elim (fun y => absurd y hvs.symm) (fun y => absurd y hso)⟩

/-- Every sequence of calls keeps a consistent state consistent. -/
theorem runCalls_consistent (calls : List Call) (s : Pump) (h : Consistent s) :
    Consistent (runCalls s calls) := by
  induction calls generalizing s with
  | nil => exact h
  | cons c cs ih => exact ih (c.run s) (Call.run_consistent c s h)

/-- C23. Reachable-state consistency: in every state reachable from a freshly
constructed pump (STOPPED, operating mode OFF, requested and actual output OFF)
by a sequence of calls of `ToggleState`, `process`, `turnOff`, `resetGrainRest`,
`updatePumpTemperature` and of the other public methods, with arbitrary times
and temperatures: the control state STOPPED implies the requested output OFF;
the control state ON implies the requested output ON; the operating mode OFF
implies the control state STOPPED; and the control state VENT or ON implies the
operating mode ON. -/
theorem reachable_consistent (s : Pump) (h : Reachable s) :
    (s.iControlState = PUMP_CONTROL_STOP → s.iOutputStateRequested = PUMP_OUTPUT_STATE_OFF)
      ∧ (s.iControlState = PUMP_CONTROL_ON → s.iOutputStateRequested = PUMP_OUTPUT_STATE_ON)
      ∧ (s.iOperatingMode = PUMP_OPERATING_MODE_OFF → s.iControlState = PUMP_CONTROL_STOP)
      ∧ (s.iControlState = PUMP_CONTROL_VENT ∨ s.iControlState = PUMP_CONTROL_ON →
          s.iOperatingMode = PUMP_OPERATING_MODE_ON) := by
  obtain ⟨raw, p, q, calls, rfl⟩ := h
  exact (runCalls_consistent calls _ (construct_consistent raw p q)).2

/-- Witness of C23: the state reached from the fresh pump by a toggle at second
0, a poll, a temperature of 95 degrees, a poll at second 1, a temperature of 20
degrees, a toggle at second 2 and the polls at seconds 2 and 7: it is in VENT
with the operating mode ON. -/
theorem reachable_consistent_witness :
    (runCalls freshPump
        [Call.ToggleState 0, Call.process 0, Call.updatePumpTemperature 95, Call.process 1,
          Call.updatePumpTemperature 20, Call.ToggleState 2, Call.process 2,
          Call.process 7]).iControlState = PUMP_CONTROL_VENT
      ∧ (runCalls freshPump
        [Call.ToggleState 0, Call.process 0, Call.updatePumpTemperature 95, Call.process 1,
          Call.updatePumpTemperature 20, Call.ToggleState 2, Call.process 2,
          Call.process 7]).iOperatingMode = PUMP_OPERATING_MODE_ON :=
  ⟨by decide,
    (reachable_consistent _ ⟨zeroStorage, 5, -1,
      [Call.ToggleState 0, Call.process 0, Call.updatePumpTemperature 95, Call.process 1,
        Call.updatePumpTemperature 20, Call.ToggleState 2, Call.process 2, Call.process 7],
      rfl⟩).2.2.2 (Or.inl (by decide))⟩

/-! ### No automatic restart -/

/-- The state-machine part of `process` does not write the operating mode. -/
theorem stateControl_operatingMode (now : Int) (s : Pump) :
    (stateControl now s).iOperatingMode = s.iOperatingMode := by
  have h1 : ∀ u : Pump, (ventInitialSetup now u).iOperatingMode = u.iOperatingMode := by
    intro u; unfold ventInitialSetup; split_ifs <;> rfl
  have h2 : ∀ u : Pump, (ventCycleEndCheck now u).iOperatingMode = u.iOperatingMode := by
    intro u; unfold ventCycleEndCheck; split_ifs <;> rfl
  have h3 : ∀ u : Pump, (ventPhaseEndCheck u).iOperatingMode = u.iOperatingMode := by
    intro u; unfold ventPhaseEndCheck; split_ifs <;> rfl
  have h4 : ∀ u : Pump, (ventilationControl now u).iOperatingMode = u.iOperatingMode := by
    intro u; unfold ventilationControl
    split_ifs
    · rw [h3, h2, h1]
    · rfl
  have h5 : ∀ u : Pump, (grainRestControl now u).iOperatingMode = u.iOperatingMode := by
    intro u; unfold grainRestControl; dsimp only; split_ifs <;> rfl
  unfold stateControl
  split_ifs
  · rfl
  · rw [h5, h4]

/-- `process` does not write the operating mode. -/
theorem process_operatingMode (now : Int) (s : Pump) :
    (process now s).iOperatingMode = s.iOperatingMode := by
  obtain ⟨f, p, e, hio⟩ := ioControl_shape (stateControl now s)
  rw [process, hio]
  exact stateControl_operatingMode now s

/-- A poll of a STOPPED pump leaves it STOPPED. -/
theorem process_stopped (now : Int) (s : Pump) (h : s.iControlState = PUMP_CONTROL_STOP) :
    (process now s).iControlState = PUMP_CONTROL_STOP := by
  obtain ⟨f, p, e, hio⟩ := ioControl_shape (stateControl now s)
  rw [process, hio]
  show (stateControl now s).iControlState = PUMP_CONTROL_STOP
  by_cases hT : maxPumpTemperatureExceeded s
  · simp only [stateControl, hT, if_true]
  · have hV : s.iControlState ≠ PUMP_CONTROL_VENT := by rw [h]; decide
    have hB : ¬ (s.iControlState = PUMP_CONTROL_GRAIN_REST
        ∧ s.iOperatingMode = PUMP_OPERATING_MODE_ON ∧ s.iGrainRestLength ≠ 0) := by
      rintro ⟨x, _⟩
      rw [h] at x
      revert x
      decide
    rw [stateControl_idle now s hT hV hB]
    exact h

/-- Every call other than `ToggleState` leaves a STOPPED pump STOPPED. -/
theorem Call.run_stopped (c : Call) (s : Pump) (hc : c.isToggleState = false)
    (h : s.iControlState = PUMP_CONTROL_STOP) :
    (c.run s).iControlState = PUMP_CONTROL_STOP := by
  cases c with
  | ToggleState now => simp [Call.isToggleState] at hc
  | process now => exact process_stopped now s h
  | turnOff => exact (turnOff_state s).1
  | stateChangeOccurred =>
    show (AcksenPump.stateChangeOccurred s).2.iControlState = PUMP_CONTROL_STOP
    unfold AcksenPump.stateChangeOccurred
    split_ifs <;> exact h
  | _ => exact h

/-- Every sequence of calls without a `ToggleState` leaves a STOPPED pump
STOPPED. -/
theorem runCalls_stopped (calls : List Call) (s : Pump)
    (hc : ∀ c ∈ calls, c.isToggleState = false)
    (h : s.iControlState = PUMP_CONTROL_STOP) :
    (runCalls s calls).iControlState = PUMP_CONTROL_STOP := by
  induction calls generalizing s with
  | nil => exact h
  | cons c cs ih =>
    exact ih (c.run s) (fun d hd => hc d (List.mem_cons_of_mem _ hd))
      (Call.run_stopped c s (hc c (List.mem_cons_self _ _)) h)

/-- Every state reached from the fresh pump by a sequence of calls is
reachable. -/
theorem reachable_of_fresh (calls : List Call) : Reachable (runCalls freshPump calls) :=
  ⟨zeroStorage, 5, -1, calls, rfl⟩

/-- C24. No automatic restart: for every state and time `process` leaves the
operating mode as it was, also when the maximum temperature check trips, so that
a STOPPED state with the operating mode ON is reachable; a pump that is STOPPED
at entry to `process` is STOPPED at exit; hence after a trip the pump stays
STOPPED, also once the temperature has fallen below the maximum, through every
sequence of calls that contains no `ToggleState`. -/
theorem no_automatic_restart (now : Int) (s : Pump) :
    (process now s).iOperatingMode = s.iOperatingMode
      ∧ (s.iControlState = PUMP_CONTROL_STOP →
          (process now s).iControlState = PUMP_CONTROL_STOP)
      ∧ (Reachable overheatedPump
          ∧ overheatedPump.iControlState = PUMP_CONTROL_STOP
          ∧ overheatedPump.iOperatingMode = PUMP_OPERATING_MODE_ON)
      ∧ (∀ calls : List Call, s.iControlState = PUMP_CONTROL_STOP →
          (∀ c ∈ calls, c.isToggleState = false) →
          (runCalls s calls).iControlState = PUMP_CONTROL_STOP) := by
  refine ⟨process_operatingMode now s, process_stopped now s, ⟨?_, by decide, by decide⟩,
    fun calls h hc => runCalls_stopped calls s hc h⟩
  have e : overheatedPump = runCalls freshPump
      [Call.ToggleState 0, Call.process 0, Call.updatePumpTemperature 95, Call.process 1] := rfl
  rw [e]
  exact reachable_of_fresh _

/-- Witness of C24: the overheated pump, STOPPED by the trip at second 1 with the
operating mode ON, is told that the temperature has fallen to 20 degrees and is
polled at seconds 2, 3 and 60: it is still STOPPED, with the operating mode ON;
a `ToggleState` at second 61 then starts it. -/
theorem no_automatic_restart_witness :
    ¬ maxPumpTemperatureExceeded (updatePumpTemperature 20 overheatedPump)
      ∧ (runCalls overheatedPump
          [Call.updatePumpTemperature 20, Call.process 2, Call.process 3,
            Call.process 60]).iControlState = PUMP_CONTROL_STOP
      ∧ (process 2 (updatePumpTemperature 20 overheatedPump)).iOperatingMode
          = PUMP_OPERATING_MODE_ON
      ∧ (runCalls overheatedPump
          [Call.updatePumpTemperature 20, Call.process 2, Call.process 3, Call.process 60,
            Call.ToggleState 61]).iControlState = PUMP_CONTROL_VENT :=
  ⟨by decide,
    (no_automatic_restart 2 overheatedPump).2.2.2 _ (by decide) (by decide),
    ((no_automatic_restart 2 (updatePumpTemperature 20 overheatedPump)).1).trans (by decide),
    by decide⟩

/-! ### Polarity switch after construction -/

/-- The first poll after construction and `switchPumpNegativeLogic`: the
state-machine part changes nothing, and the I/O control writes the level 1 to
the pin, which was at 0; this is its only platform call and its only write. -/
theorem process_after_polarity_switch (raw : Pump) (p q now : Int) :
    process now (switchPumpNegativeLogic (construct raw p q))
      = { switchPumpNegativeLogic (construct raw p q) with
          pinLevel := 1
          effects := (switchPumpNegativeLogic (construct raw p q)).effects
            ++ [Effect.digitalWrite 1] } := by
  have hS : stateControl now (switchPumpNegativeLogic (construct raw p q))
      = switchPumpNegativeLogic (construct raw p q) := by
    by_cases hT : maxPumpTemperatureExceeded (switchPumpNegativeLogic (construct raw p q))
    · simp only [stateControl, hT, if_true]
      rfl
    · have hV : (switchPumpNegativeLogic (construct raw p q)).iControlState
          ≠ PUMP_CONTROL_VENT := by
        show PUMP_CONTROL_STOP ≠ PUMP_CONTROL_VENT; decide
      have hB : ¬ ((switchPumpNegativeLogic (construct raw p q)).iControlState
            = PUMP_CONTROL_GRAIN_REST
          ∧ (switchPumpNegativeLogic (construct raw p q)).iOperatingMode
            = PUMP_OPERATING_MODE_ON
          ∧ (switchPumpNegativeLogic (construct raw p q)).iGrainRestLength ≠ 0) := by
        rintro ⟨x, _⟩
        have : PUMP_CONTROL_STOP = PUMP_CONTROL_GRAIN_REST := x
        revert this
        decide
      exact stateControl_idle now _ hT hV hB
  rw [process, hS]
  rfl

/-- C26. Polarity switch after construction: the constructor writes the
positive-logic OFF level, 0, to the pin; after `switchPumpNegativeLogic` the pin
is at the ON level of the negative logic while the actual and the requested
output are OFF; the next `process` call, whose request is still OFF, writes the
OFF level, 1, to the pin, in one write, without setting the state-change flag
and without calling the handler. -/
theorem polarity_switch_after_construction (raw : Pump) (p q now : Int) :
    (construct raw p q).pinLevel = PUMP_POSITIVE_LOGIC_OFF
      ∧ (construct raw p q).effects
          = raw.effects ++ [Effect.digitalWrite PUMP_POSITIVE_LOGIC_OFF]
      ∧ (switchPumpNegativeLogic (construct raw p q)).iPumpOnState = PUMP_NEGATIVE_LOGIC_ON
      ∧ (switchPumpNegativeLogic (construct raw p q)).pinLevel
          = (switchPumpNegativeLogic (construct raw p q)).iPumpOnState
      ∧ (switchPumpNegativeLogic (construct raw p q)).iOutputStateActual
          = PUMP_OUTPUT_STATE_OFF
      ∧ (switchPumpNegativeLogic (construct raw p q)).iOutputStateRequested
          = PUMP_OUTPUT_STATE_OFF
      ∧ (process now (switchPumpNegativeLogic (construct raw p q))).iOutputStateRequested
          = PUMP_OUTPUT_STATE_OFF
      ∧ (process now (switchPumpNegativeLogic (construct raw p q))).iPumpOffState
          = PUMP_NEGATIVE_LOGIC_OFF
      ∧ (process now (switchPumpNegativeLogic (construct raw p q))).pinLevel
          = (process now (switchPumpNegativeLogic (construct raw p q))).iPumpOffState
      ∧ (process now (switchPumpNegativeLogic (construct raw p q))).effects
          = (switchPumpNegativeLogic (construct raw p q)).effects
            ++ [Effect.digitalWrite PUMP_NEGATIVE_LOGIC_OFF]
      ∧ pinWriteCount (process now (switchPumpNegativeLogic (construct raw p q))).effects
          = pinWriteCount (switchPumpNegativeLogic (construct raw p q)).effects + 1
      ∧ (process now (switchPumpNegativeLogic (construct raw p q)))._bStateChangeOccurred
          = false
      ∧ callbackCount (process now (switchPumpNegativeLogic (construct raw p q))).effects
          = callbackCount (switchPumpNegativeLogic (construct raw p q)).effects := by
  rw [process_after_polarity_switch]
  refine ⟨rfl, rfl, rfl, rfl, rfl, rfl, rfl, rfl, rfl, rfl, ?_, rfl, ?_⟩
  · simp [pinWriteCount, List.countP_append]
  · simp [callbackCount, List.count_append]

/-! ### The actual length of the ventilation phase -/

/-- The loop of `waitForPin` returns when some sample is past the deadline. -/
theorem waitForPinLoop_returns (value : Int) (timeout start : Nat) :
    ∀ (samples : List (Int × Nat)) (i0 : Nat),
      (∃ x ∈ samples, elapsedMillis start x.2 > timeout) →
      ∃ (r : Bool) (i : Nat), waitForPinLoop value timeout start i0 samples = some (r, i) := by
  intro samples
  induction samples with
  | nil => intro i0 h; simp at h
  | cons s rest ih =>
    intro i0 h
    obtain ⟨level, millis⟩ := s
    by_cases hv : level = value
    · exact ⟨true, i0, by simp [waitForPinLoop, hv]⟩
    · by_cases ht : elapsedMillis start millis > timeout
      · exact ⟨false, i0, by simp [waitForPinLoop, hv, ht]⟩
      · have h' : ∃ x ∈ rest, elapsedMillis start x.2 > timeout := by
          obtain ⟨x, hx, hxt⟩ := h
          rcases List.mem_cons.mp hx with rfl | hx
          · exact absurd hxt ht
          · exact ⟨x, hx, hxt⟩
        obtain ⟨r, i, hri⟩ := ih (i0 + 1) h'
        exact ⟨r, i, by simp [waitForPinLoop, hv, ht, hri]⟩

/-- Where the loop of `waitForPin` returns.  A returned value of `true` comes
from the first sample at the wanted level, `false` from the first sample past
the deadline; no earlier sample is at the wanted level or past the deadline, and
the number of passes made before is the number of these earlier samples. -/
theorem waitForPinLoop_exit (value : Int) (timeout start : Nat) :
    ∀ (samples : List (Int × Nat)) (i0 : Nat) (r : Bool) (i : Nat),
      waitForPinLoop value timeout start i0 samples = some (r, i) →
      ∃ (pre : List (Int × Nat)) (x : Int × Nat) (post : List (Int × Nat)),
        samples = pre ++ x :: post ∧ i = i0 + pre.length
          ∧ (∀ y ∈ pre, y.1 ≠ value ∧ ¬ elapsedMillis start y.2 > timeout)
          ∧ (r = true → x.1 = value)
          ∧ (r = false → x.1 ≠ value ∧ elapsedMillis start x.2 > timeout) := by
  intro samples
  induction samples with
  | nil => intro i0 r i h; simp [waitForPinLoop] at h
  | cons s rest ih =>
    intro i0 r i h
    obtain ⟨level, millis⟩ := s
    by_cases hv : level = value
    · simp only [waitForPinLoop, hv, if_true, Option.some.injEq, Prod.mk.injEq] at h
      obtain ⟨rfl, rfl⟩ := h
      exact ⟨[], (level, millis), rest, rfl, rfl, by simp, fun _ => hv, by simp⟩
    · by_cases ht : elapsedMillis start millis > timeout
      · simp only [waitForPinLoop, hv, if_false, ht, if_true, Option.some.injEq,
          Prod.mk.injEq] at h
        obtain ⟨rfl, rfl⟩ := h
        exact ⟨[], (level, millis), rest, rfl, rfl, by simp, by simp, fun _ => ⟨hv, ht⟩⟩
      · simp only [waitForPinLoop, hv, if_false, ht] at h
        obtain ⟨pre, x, post, hs, hi, hpre, htrue, hfalse⟩ := ih (i0 + 1) r i h
        refine ⟨(level, millis) :: pre, x, post, by rw [hs]; rfl, ?_, ?_, htrue, hfalse⟩
        · rw [hi, List.length_cons]; omega
        · intro y hy
          rcases List.mem_cons.mp hy with rfl | hy
          · exact ⟨hv, ht⟩
          · exact hpre y hy

/-- The loop of `waitForPin` returns `true` when some sample is at the wanted
level and no earlier sample is past the deadline. -/
theorem waitForPinLoop_true (value : Int) (timeout start : Nat) :
    ∀ (samples : List (Int × Nat)) (i0 : Nat),
      (∃ (pre : List (Int × Nat)) (x : Int × Nat) (post : List (Int × Nat)),
        samples = pre ++ x :: post ∧ x.1 = value
          ∧ ∀ y ∈ pre, ¬ elapsedMillis start y.2 > timeout) →
      ∃ i : Nat, waitForPinLoop value timeout start i0 samples = some (true, i) := by
  intro samples
  induction samples with
  | nil =>
    rintro i0 ⟨pre, x, post, hs, _⟩
    simp at hs
  | cons s rest ih =>
    rintro i0 ⟨pre, x, post, hs, hx, hpre⟩
    obtain ⟨level, millis⟩ := s
    by_cases hv : level = value
    · exact ⟨i0, by simp [waitForPinLoop, hv]⟩
    · cases pre with
      | nil =>
        simp only [List.nil_append, List.cons.injEq] at hs
        obtain ⟨rfl, _⟩ := hs
        exact absurd hx hv
      | cons p pre =>
        simp only [List.cons_append, List.cons.injEq] at hs
        obtain ⟨rfl, rfl⟩ := hs
        have ht : ¬ elapsedMillis start millis > timeout :=
          hpre (level, millis) (List.mem_cons_self _ _)
        obtain ⟨i, hi⟩ := ih (i0 + 1)
          ⟨pre, x, post, rfl, hx, fun y hy => hpre y (List.mem_cons_of_mem _ hy)⟩
        exact ⟨i, by simp [waitForPinLoop, hv, ht, hi]⟩

/-- C22. Bounded sync wait: `waitForPin` over a sequence of samples (pin level,
then `millis()`), with the elapsed time `millis() - start` taken in 32-bit
wrap-around arithmetic.  If some sample of the sequence has an elapsed time
above the timeout, the function returns.  It returns `true` exactly when some
sample is at the wanted level and no earlier sample has an elapsed time above
the timeout, and then it returns at the first sample at the wanted level;
otherwise it returns `false`, at the first sample whose elapsed time is above
the timeout. -/
theorem waitForPin_bounded (value : Int) (timeout start : Nat) (samples : List (Int × Nat))
    (hT : ∃ x ∈ samples, elapsedMillis start x.2 > timeout) :
    ∃ (r : Bool) (i : Nat),
      waitForPin value timeout start samples = some (r, i)
        ∧ (r = true ↔
            ∃ (pre : List (Int × Nat)) (x : Int × Nat) (post : List (Int × Nat)),
              samples = pre ++ x :: post ∧ x.1 = value
                ∧ ∀ y ∈ pre, ¬ elapsedMillis start y.2 > timeout)
        ∧ (r = true →
            ∃ (pre : List (Int × Nat)) (x : Int × Nat) (post : List (Int × Nat)),
              samples = pre ++ x :: post ∧ pre.length = i ∧ x.1 = value
                ∧ ∀ y ∈ pre, y.1 ≠ value)
        ∧ (r = false →
            ∃ (pre : List (Int × Nat)) (x : Int × Nat) (post : List (Int × Nat)),
              samples = pre ++ x :: post ∧ pre.length = i
                ∧ elapsedMillis start x.2 > timeout
                ∧ ∀ y ∈ pre, ¬ elapsedMillis start y.2 > timeout) := by
  obtain ⟨r, i, hri⟩ := waitForPinLoop_returns value timeout start samples 0 hT
  obtain ⟨pre, x, post, hs, hi, hpre, htrue, hfalse⟩ :=
    waitForPinLoop_exit value timeout start samples 0 r i hri
  have hlen : pre.length = i := by omega
  refine ⟨r, i, hri, ⟨fun hr => ?_, fun hm => ?_⟩, fun hr => ?_, fun hr => ?_⟩
  · exact ⟨pre, x, post, hs, htrue hr, fun y hy => (hpre y hy).2⟩
  · obtain ⟨i', hi'⟩ := waitForPinLoop_true value timeout start samples 0 hm
    rw [hri] at hi'
    simp only [Option.some.injEq, Prod.mk.injEq] at hi'
    exact hi'.1
  · exact ⟨pre, x, post, hs, hlen, htrue hr, fun y hy => (hpre y hy).1⟩
  · exact ⟨pre, x, post, hs, hlen, (hfalse hr).2, fun y hy => (hpre y hy).2⟩

/-- Witness of C22: a wait for level 1 with timeout 20 entered at
`millis() = 2 ^ 32 - 5`; the counter wraps around between the second and the
third sample; the elapsed times are 0, 4, 8, 20 and 21, so the wait gives up at
the fifth sample, before the level 1 of the sixth is seen. -/
theorem waitForPin_bounded_witness :
    elapsedMillis (2 ^ 32 - 5) 15 = 20
      ∧ elapsedMillis (2 ^ 32 - 5) 16 = 21
      ∧ waitForPin 1 20 (2 ^ 32 - 5)
          [(0, 2 ^ 32 - 5), (0, 2 ^ 32 - 1), (0, 3), (0, 15), (0, 16), (1, 17)]
          = some (false, 4)
      ∧ ∃ (r : Bool) (i : Nat),
        waitForPin 1 20 (2 ^ 32 - 5)
            [(0, 2 ^ 32 - 5), (0, 2 ^ 32 - 1), (0, 3), (0, 15), (0, 16), (1, 17)]
            = some (r, i)
          ∧ (r = true ↔
              ∃ (pre : List (Int × Nat)) (x : Int × Nat) (post : List (Int × Nat)),
                [(0, 2 ^ 32 - 5), (0, 2 ^ 32 - 1), (0, 3), (0, 15), (0, 16), (1, 17)]
                    = pre ++ x :: post ∧ x.1 = 1
                  ∧ ∀ y ∈ pre, ¬ elapsedMillis (2 ^ 32 - 5) y.2 > 20)
          ∧ (r = true →
              ∃ (pre : List (Int × Nat)) (x : Int × Nat) (post : List (Int × Nat)),
                [(0, 2 ^ 32 - 5), (0, 2 ^ 32 - 1), (0, 3), (0, 15), (0, 16), (1, 17)]
                    = pre ++ x :: post ∧ pre.length = i ∧ x.1 = 1
                  ∧ ∀ y ∈ pre, y.1 ≠ 1)
          ∧ (r = false →
              ∃ (pre : List (Int × Nat)) (x : Int × Nat) (post : List (Int × Nat)),
                [(0, 2 ^ 32 - 5), (0, 2 ^ 32 - 1), (0, 3), (0, 15), (0, 16), (1, 17)]
                    = pre ++ x :: post ∧ pre.length = i
                  ∧ elapsedMillis (2 ^ 32 - 5) x.2 > 20
                  ∧ ∀ y ∈ pre, ¬ elapsedMillis (2 ^ 32 - 5) y.2 > 20) :=
  ⟨by decide, by decide, by decide,
    waitForPin_bounded 1 20 (2 ^ 32 - 5)
      [(0, 2 ^ 32 - 5), (0, 2 ^ 32 - 1), (0, 3), (0, 15), (0, 16), (1, 17)]
      ⟨(0, 16), by simp, by decide⟩⟩

end AcksenPump
